import Mathlib

/-!
Shared-memory interface layer of the simulator (libgazebo) and the generic camera controller.

A shallow embedding of

* `libgazebo/gazebo.h`: the segment structs, `SimulationIface::Go`, the device variants'
  constructors;
* `server/controllers/camera/generic/Generic_Camera.cc`: `UpdateChild` and `PutCameraData`.

Conventions of the embedding.

* `unsigned int` values are natural numbers reduced modulo `2^32` wherever the code computes or
  converts them.
* `float` and `double` values are only ever copied by the embedded code; they are carried as
  their bit patterns (`F32`, `F64`).
* A handle carries the list of effects it has issued so far (`Iface.trace`, oldest first):
  calls of `Lock`, `Unlock`, `Post`, every read and write of a field of the mapped segment made
  by a statement of the embedded code, and the calls on collaborators.  Every primitive step
  of the model updates the state and appends its own event, so the trace cannot drift from the
  state.
* `Iface::Lock`, `Iface::Unlock`, `Iface::Post` are only declared in `gazebo.h`; what they do
  is taken from the specification.  The value a `Lock` call returns and the value a `Post`
  call stamps into the header are inputs of the model.  A call is one event of the trace,
  which stands for everything the call does inside.
-/

namespace gazebo

/-! ## Constants of `gazebo.h` -/

/-- The constant `GAZEBO_SIMULATION_MAX_REQUESTS`. -/
def GAZEBO_SIMULATION_MAX_REQUESTS : Nat := 128

/-- The constant `GAZEBO_MAX_NUMBER_OF_CHILDREN`. -/
def GAZEBO_MAX_NUMBER_OF_CHILDREN : Nat := 256

/-- Number of values of an `unsigned int`. -/
def UINT_MOD : Nat := 2 ^ 32

/-- Bit pattern of a `float`. -/
abbrev F32 := Nat

/-- Bit pattern of a `double`. -/
abbrev F64 := Nat

/-! ## Plain data classes -/

/-- The class `Vec3`. -/
structure Vec3 where
  x : F32
  y : F32
  z : F32
deriving DecidableEq, Repr

/-- The class `Pose`. -/
structure Pose where
  pos : Vec3
  roll : F32
  pitch : F32
  yaw : F32
deriving DecidableEq, Repr

/-- The class `GazeboData`, the header every segment starts with. -/
structure GazeboData where
  openCount : Int
  time : F64
  version : Int
  size : Nat
  modelId : Int
  parentModelId : Int
  modelType : String
deriving DecidableEq, Repr

/-! ## Effects -/

/-- The fields of a mapped segment the embedded code touches. -/
inductive Loc where
  | headOpenCount
  | headTime
  | requestCount
  | requestType (i : Nat)
  | requestRunTime (i : Nat)
  | camWidth
  | camHeight
  | camImageSize
  | camHfov
  | camVfov
  | camPosePosX
  | camPosePosY
  | camPosePosZ
  | camPoseRoll
  | camPosePitch
  | camPoseYaw
  | camImage
  | camSaveFrames
deriving DecidableEq, Repr

/-- One effect issued through an interface handle or on one of its collaborators. -/
inductive Event where
  /-- The call `Lock(blocking)`. -/
  | lock (blocking : Nat)
  /-- The call `Unlock()`. -/
  | unlock
  /-- The call `Post()`. -/
  | post
  /-- A read of a field of the mapped segment. -/
  | read (l : Loc)
  /-- A write of a field of the mapped segment. -/
  | write (l : Loc)
  /-- The call `currentConnection.disconnect()`. -/
  | disconnect
  /-- The call `goAckSignal.connect(subscriber)`. -/
  | connect
  /-- A failed `assert`: the process aborts. -/
  | assertFail
  /-- Acquisition of the simulator's recursive mutex by a `scoped_lock`. -/
  | mrLock
  /-- The call `myParent->EnableSaveFrame(b)`. -/
  | enableSaveFrame (b : Bool)
  /-- The call `myParent->SetActive(b)`. -/
  | setActive (b : Bool)
deriving DecidableEq, Repr

/-- Whether an event is a read or a write of a segment field. -/
def Event.isAccess : Event → Bool
  | .read _ => true
  | .write _ => true
  | _ => false

/-- Whether an event is a write of a segment field. -/
def Event.isWrite : Event → Bool
  | .write _ => true
  | _ => false

/-- Whether an event is a `Lock` call. -/
def Event.isLock : Event → Bool
  | .lock _ => true
  | _ => false

/-! ## The base class `Iface` -/

/-- The part of an `Iface` handle the embedded code acts on: the effects issued so far,
whether the handle holds the interface lock, and the value the next `Post` stamps into the
header of the segment (an input: the specification does not say which value it is). -/
structure Iface where
  trace : List Event
  held : Bool
  postStamp : F64
deriving DecidableEq, Repr

/-- Appends one event to the trace of a handle. -/
def Iface.emit (self : Iface) (e : Event) : Iface :=
  { self with trace := self.trace ++ [e] }

/-- Modelled from the spec: the body of `Iface::Lock` is not in `gazebo.h` (only its declaration
and the comment "return True if the lock is acquired"); the spec has it acquire the
per-interface mutual-exclusion resource.  The call is recorded; the returned value `result` is
an input; the handle holds the lock afterwards when `result` is true. -/
def Iface.Lock (self : Iface) (blocking : Nat) (result : Bool) : Iface × Bool :=
  ({ (self.emit (Event.lock blocking)) with held := self.held || result }, result)

/-- Modelled from the spec: the body of `Iface::Unlock` is not in `gazebo.h`; the spec has it
release the lock.  The call is recorded and the lock is released. -/
def Iface.Unlock (self : Iface) : Iface :=
  { (self.emit Event.unlock) with held := false }

/-- Modelled from the spec: the body of `Iface::Post` is not in `gazebo.h`; the spec has it
stamp the header timestamp and signal the waiters, without requiring the lock.  On the base
handle the call is recorded, as one event that stands for the whole call; the stamp of the
header is made where the segment is in reach, see `CameraIface.Post`. -/
def Iface.Post (self : Iface) : Iface :=
  self.emit Event.post

/-- A handle that has issued no effect and does not hold the lock. -/
def Iface.fresh : Iface := { trace := [], held := false, postStamp := 0 }

/-- The effects a handle has issued since it was in the state `before`. -/
def Iface.since (after before : Iface) : List Event :=
  after.trace.drop before.trace.length

/-! ## The simulation interface -/

/-- The enumeration `SimulationRequestData::Type`, in declaration order. -/
inductive RequestType where
  | PAUSE
  | UNPAUSE
  | RESET
  | SAVE
  | GET_POSE3D
  | GET_POSE2D
  | SET_POSE3D
  | SET_POSE2D
  | SET_B_POSE2D
  | SET_STATE
  | GET_STATE
  | GO
  | GET_MODEL_TYPE
  | GET_NUM_MODELS
  | GET_NUM_CHILDREN
  | GET_CHILD_NAME
  | GET_MODEL_NAME
  | GET_MODEL_FIDUCIAL_ID
  | GET_MODEL_EXTENT
  | GET_MODEL_INTERFACES
  | GET_INTERFACE_TYPE
deriving DecidableEq, Repr

/-- The enumerators of `SimulationRequestData::Type` in the order of their declaration (lines
420 to 441 of `gazebo.h`). -/
def RequestType.declared : List RequestType :=
  [.PAUSE, .UNPAUSE, .RESET, .SAVE, .GET_POSE3D, .GET_POSE2D, .SET_POSE3D, .SET_POSE2D,
   .SET_B_POSE2D, .SET_STATE, .GET_STATE, .GO, .GET_MODEL_TYPE, .GET_NUM_MODELS,
   .GET_NUM_CHILDREN, .GET_CHILD_NAME, .GET_MODEL_NAME, .GET_MODEL_FIDUCIAL_ID,
   .GET_MODEL_EXTENT, .GET_MODEL_INTERFACES, .GET_INTERFACE_TYPE]

/-- The numeric value of an enumerator.  No enumerator of `SimulationRequestData::Type` has an
initialiser, so the first has value 0 and each next one the value of its predecessor plus one:
the value is the position in the declaration. -/
def RequestType.value (t : RequestType) : Nat :=
  RequestType.declared.indexOf t

/-- The class `SimulationRequestData`.  Character arrays are lists of character codes. -/
structure SimulationRequestData where
  type : RequestType
  modelName : List Nat
  bodyName : List Nat
  strValue : List Nat
  vec3Value : Vec3
  uintValue : Nat
  modelPose : Pose
  modelLinearVel : Vec3
  modelAngularVel : Vec3
  modelLinearAccel : Vec3
  modelAngularAccel : Vec3
  runTime : Nat
  childInterfaces : List (List Nat)
  nChildInterfaces : Int
deriving DecidableEq, Repr

/-- The class `SimulationData`.

`requests` and `responses` are indexed by natural numbers; only the indices below
`GAZEBO_SIMULATION_MAX_REQUESTS` are slots of the C++ arrays, and no operation of the model
reads or writes a larger index.  Where the unchecked C++ indexing `requests[i]` with
`i >= 128` lands is computed from the layout of the class, see `SimulationData.storeType` and
`SimulationData.storeRunTime`. -/
structure SimulationData where
  head : GazeboData
  simTime : F64
  pauseTime : F64
  realTime : F64
  state : Int
  requests : Nat → SimulationRequestData
  requestCount : Nat
  responses : Nat → SimulationRequestData
  responseCount : Nat
  semId : Int
  semKey : Int

/-- A `boost::signal<void (void)>`: the connected slots in connection order, each with the
identifier of its connection, and the identifier the next connection gets. -/
structure Signal (σ : Type) where
  slots : List (Nat × σ)
  nextId : Nat

/-- A `boost::signals::connection`: the identifier of the slot it refers to; a default
constructed connection refers to none. -/
structure Connection where
  id : Option Nat
deriving DecidableEq, Repr

/-- The method `connection::connected()`: the connection refers to a slot that is still
connected. -/
def Connection.connected {σ : Type} (c : Connection) (sig : Signal σ) : Bool :=
  match c.id with
  | none => false
  | some i => sig.slots.any (fun p => p.1 == i)

/-- The method `connection::disconnect()`: the slot the connection refers to is removed from
the signal. -/
def Connection.disconnect {σ : Type} (c : Connection) (sig : Signal σ) : Signal σ :=
  match c.id with
  | none => sig
  | some i => { sig with slots := sig.slots.filter (fun p => p.1 != i) }

/-- The method `signal::connect(subscriber)`: the subscriber is connected as the last slot; the
connection returned refers to it. -/
def Signal.connect {σ : Type} (sig : Signal σ) (subscriber : σ) : Signal σ × Connection :=
  ({ slots := sig.slots ++ [(sig.nextId, subscriber)], nextId := sig.nextId + 1 },
   { id := some sig.nextId })

/-- The subscribers connected to a signal, in connection order. -/
def Signal.subscribers {σ : Type} (sig : Signal σ) : List σ :=
  sig.slots.map (fun p => p.2)

/-- The class `SimulationIface`: the base handle, the mapped segment `data` points to, the
go-acknowledge signal and the current connection to it. -/
structure SimulationIface (σ : Type) where
  base : Iface
  data : SimulationData
  goAckSignal : Signal σ
  currentConnection : Connection

/-- Overwrites entry `i` of an indexed memory. -/
def setAt {α : Type} (f : Nat → α) (i : Nat) (v : α) : Nat → α :=
  fun j => if j = i then v else f j

/-! ### Layout of the request ring

The members `requests`, `requestCount` and `responses` of `SimulationData` follow each other in
memory.  With a 4-byte `int`, `unsigned int`, `float` and enumeration and a 1-byte `char`,
every member of `SimulationRequestData` has alignment at most 4 and there is no padding, so
the byte offsets below are those of the compiled class. -/

/-- The value of `sizeof(SimulationRequestData)`: the sizes of `type`, `modelName`, `bodyName`,
`strValue`, `vec3Value`, `uintValue`, `modelPose`, the four velocity and acceleration
vectors, `runTime`, `childInterfaces` and `nChildInterfaces`, in declaration order. -/
def SimulationRequestData.sizeof : Nat :=
  4 + 512 + 512 + 512 + 12 + 4 + 24 + 12 + 12 + 12 + 12 + 4 +
    GAZEBO_MAX_NUMBER_OF_CHILDREN * 512 + 4

/-- Byte offset of the member `type` in `SimulationRequestData`. -/
def SimulationRequestData.offsetType : Nat := 0

/-- Byte offset of `modelAngularAccel.z` in `SimulationRequestData`. -/
def SimulationRequestData.offsetModelAngularAccelZ : Nat :=
  4 + 512 + 512 + 512 + 12 + 4 + 24 + 12 + 12 + 12 + 8

/-- Byte offset of the member `runTime` in `SimulationRequestData`. -/
def SimulationRequestData.offsetRunTime : Nat :=
  4 + 512 + 512 + 512 + 12 + 4 + 24 + 12 + 12 + 12 + 12

/-- Byte offset of the member `nChildInterfaces`, the last one, in `SimulationRequestData`. -/
def SimulationRequestData.offsetNChildInterfaces : Nat :=
  SimulationRequestData.sizeof - 4

/-- Byte offset, from `&requests[0]`, of what the C++ expression `requests[i]` designates,
for every `i`: the indexing is unchecked. -/
def SimulationData.offsetRequest (i : Nat) : Nat :=
  i * SimulationRequestData.sizeof

/-- Byte offset, from `&requests[0]`, of the member `requestCount`, which follows the 128
slots of `requests`. -/
def SimulationData.offsetRequestCount : Nat :=
  GAZEBO_SIMULATION_MAX_REQUESTS * SimulationRequestData.sizeof

/-- Byte offset, from `&requests[0]`, of `responses[i]`; `responses` follows `requestCount`. -/
def SimulationData.offsetResponse (i : Nat) : Nat :=
  SimulationData.offsetRequestCount + 4 + i * SimulationRequestData.sizeof

/-- Byte offset, from `&requests[0]`, of the end of the class as far as its declared members
go: `responseCount`, `semId` and `semKey` follow the 128 slots of `responses`. -/
def SimulationData.offsetEnd : Nat :=
  SimulationData.offsetResponse GAZEBO_SIMULATION_MAX_REQUESTS + 4 + 4 + 4

/-- The store `request->type = SimulationRequestData::GO` through
`request = &requests[i]`.  For `i < 128` it sets the tag of slot `i`.  The indexing is
unchecked: `&requests[128]` is the address of `requestCount`, which then receives the numeric
value of `GO`; for `129 <= i <= 256` the address is that of `responses[i-129].nChildInterfaces`;
for larger `i` it is outside the class, whose members the store then leaves as they are (what
it does to the process is outside the model).  See `layout_of_stale_pointer`. -/
def SimulationData.storeType (d : SimulationData) (i : Nat) : SimulationData :=
  if i < GAZEBO_SIMULATION_MAX_REQUESTS then
    { d with requests := setAt d.requests i { d.requests i with type := RequestType.GO } }
  else if i = GAZEBO_SIMULATION_MAX_REQUESTS then
    { d with requestCount := RequestType.value RequestType.GO }
  else if i ≤ 2 * GAZEBO_SIMULATION_MAX_REQUESTS then
    { d with
      responses := setAt d.responses (i - (GAZEBO_SIMULATION_MAX_REQUESTS + 1))
        { d.responses (i - (GAZEBO_SIMULATION_MAX_REQUESTS + 1)) with
          nChildInterfaces := (RequestType.value RequestType.GO : Int) } }
  else d

/-- The store `request->runTime = w` through `request = &requests[i]`.  For `i < 128` it sets
the run time of slot `i`.  For `128 <= i <= 255` the address is that of
`responses[i-128].modelAngularAccel.z`, a `float` that then has the bit pattern `w`; for larger
`i` it is outside the class.  See `layout_of_stale_pointer`. -/
def SimulationData.storeRunTime (d : SimulationData) (i w : Nat) : SimulationData :=
  if i < GAZEBO_SIMULATION_MAX_REQUESTS then
    { d with requests := setAt d.requests i { d.requests i with runTime := w } }
  else if i < 2 * GAZEBO_SIMULATION_MAX_REQUESTS then
    { d with
      responses := setAt d.responses (i - GAZEBO_SIMULATION_MAX_REQUESTS)
        { d.responses (i - GAZEBO_SIMULATION_MAX_REQUESTS) with
          modelAngularAccel :=
            { (d.responses (i - GAZEBO_SIMULATION_MAX_REQUESTS)).modelAngularAccel with
              z := w } } }
  else d

/-- The first statement block of `SimulationIface::Go`, up to and including `Unlock()`:

```
this->Lock(1);
SimulationRequestData *request = &(this->data->requests[this->data->requestCount++]);
request->type = SimulationRequestData::GO;
request->runTime = us;
this->Unlock();
```

The value returned by `Lock(1)` is `lockResult`; the code discards it.  The events of the two
stores name the lvalues the code writes through, `requests[i].type` and `requests[i].runTime`,
whatever they alias. -/
def SimulationIface.GoIssue {σ : Type} (self : SimulationIface σ) (us : Nat)
    (lockResult : Bool) : SimulationIface σ :=
  -- this->Lock(1);
  let b1 := (self.base.Lock 1 lockResult).1
  -- ... this->data->requestCount++ ...
  let i := self.data.requestCount
  let b2 := (b1.emit (Event.read Loc.requestCount)).emit (Event.write Loc.requestCount)
  let d2 := { self.data with requestCount := (self.data.requestCount + 1) % UINT_MOD }
  -- request->type = SimulationRequestData::GO;
  let b3 := b2.emit (Event.write (Loc.requestType i))
  let d3 := d2.storeType i
  -- request->runTime = us;
  let b4 := b3.emit (Event.write (Loc.requestRunTime i))
  let d4 := d3.storeRunTime i (us % UINT_MOD)
  -- this->Unlock();
  let b5 := b4.Unlock
  { self with base := b5, data := d4 }

/-- The second statement block of `SimulationIface::Go`:

```
if (this->currentConnection.connected())
  this->currentConnection.disconnect();
this->currentConnection = this->goAckSignal.connect( subscriber );
```
-/
def SimulationIface.GoConnect {σ : Type} (self : SimulationIface σ) (subscriber : σ) :
    SimulationIface σ :=
  let s1 : SimulationIface σ :=
    if self.currentConnection.connected self.goAckSignal then
      { self with
        base := self.base.emit Event.disconnect
        goAckSignal := self.currentConnection.disconnect self.goAckSignal }
    else self
  let r := s1.goAckSignal.connect subscriber
  { s1 with
    base := s1.base.emit Event.connect
    goAckSignal := r.1
    currentConnection := r.2 }

/-- The method `SimulationIface::Go(us, subscriber)`: the two blocks in source order. -/
def SimulationIface.Go {σ : Type} (self : SimulationIface σ) (us : Nat) (subscriber : σ)
    (lockResult : Bool) : SimulationIface σ :=
  (self.GoIssue us lockResult).GoConnect subscriber

/-- One `Go` call of a sequence: its arguments and what its `Lock(1)` returned. -/
structure GoCall (σ : Type) where
  us : Nat
  subscriber : σ
  lockResult : Bool

/-- A sequence of `Go` calls on one handle, in call order. -/
def SimulationIface.GoSeq {σ : Type} (self : SimulationIface σ) :
    List (GoCall σ) → SimulationIface σ
  | [] => self
  | c :: cs => (self.Go c.us c.subscriber c.lockResult).GoSeq cs

/-- A request record with every field zero. -/
def SimulationRequestData.zero : SimulationRequestData :=
  { type := RequestType.PAUSE, modelName := [], bodyName := [], strValue := [],
    vec3Value := ⟨0, 0, 0⟩, uintValue := 0, modelPose := ⟨⟨0, 0, 0⟩, 0, 0, 0⟩,
    modelLinearVel := ⟨0, 0, 0⟩, modelAngularVel := ⟨0, 0, 0⟩,
    modelLinearAccel := ⟨0, 0, 0⟩, modelAngularAccel := ⟨0, 0, 0⟩,
    runTime := 0, childInterfaces := [], nChildInterfaces := 0 }

/-- A header with every field zero. -/
def GazeboData.zero : GazeboData :=
  { openCount := 0, time := 0, version := 0, size := 0, modelId := 0, parentModelId := 0,
    modelType := "" }

/-- A simulation segment with `n` pending requests and every other field zero. -/
def SimulationData.withCount (n : Nat) : SimulationData :=
  { head := GazeboData.zero, simTime := 0, pauseTime := 0, realTime := 0, state := 0,
    requests := fun _ => SimulationRequestData.zero, requestCount := n,
    responses := fun _ => SimulationRequestData.zero, responseCount := 0,
    semId := 0, semKey := 0 }

/-- A simulation handle as its members are default constructed (no slot connected, the
connection referring to none), over a segment with `n` pending requests. -/
def SimulationIface.fresh (σ : Type) (n : Nat) : SimulationIface σ :=
  { base := Iface.fresh, data := SimulationData.withCount n,
    goAckSignal := { slots := [], nextId := 0 }, currentConnection := { id := none } }

/-! ## The generic camera controller -/

/-- The class `CameraData`, which `Generic_Camera.cc` uses and `gazebo.h` does not declare.  The
structure has the fields `PutCameraData` touches.  `width`, `height` and `image_size` are taken
to be `unsigned int` like the count fields of the declared segments (`requestCount`,
`actuators_count`, `bumper_count`).  `image` is the byte buffer, indexed by offset; its capacity
`sizeof(data->image)` is a parameter `cap` of the operations. -/
structure CameraData where
  head : GazeboData
  width : Nat
  height : Nat
  image_size : Nat
  image : Nat → Nat
  hfov : F64
  vfov : F64
  camera_pose : Pose
  saveFrames : Bool

/-- The class `CameraIface`: the base handle and the mapped segment `data` points to. -/
structure CameraIface where
  base : Iface
  data : CameraData

/-- What the controller reads from its parent `MonoCameraSensor` and from the simulator: the
active flag, the image geometry, the fields of view, the world pose (as the values stored in the
`float` fields), the pixel buffer `GetImageData(0)` points to, the save-frame switch set by
`EnableSaveFrame`, and the simulation time. -/
structure MonoCameraSensor where
  active : Bool
  imageWidth : Nat
  imageHeight : Nat
  imageDepth : Nat
  hfov : F64
  vfov : F64
  worldPose : Pose
  imageData : Nat → Nat
  saveFrame : Bool
  simTime : F64

/-- The class `Generic_Camera`: its parent sensor, its camera interface, and whether a failed
assertion has aborted the process. -/
structure Generic_Camera where
  myParent : MonoCameraSensor
  cameraIface : CameraIface
  aborted : Bool

/-- A write of one field of the camera segment. -/
def CameraIface.store (self : CameraIface) (l : Loc) (f : CameraData → CameraData) :
    CameraIface :=
  { base := self.base.emit (Event.write l), data := f self.data }

/-- A read of one field of the camera segment. -/
def CameraIface.load (self : CameraIface) (l : Loc) : CameraIface :=
  { self with base := self.base.emit (Event.read l) }

/-- Modelled from the spec: the call `Post()` on the camera interface.  The body of
`Iface::Post` is not in `gazebo.h`; the spec has it stamp the header timestamp and signal the
waiters.  The call is recorded and the timestamp of the header becomes the stamp. -/
def CameraIface.Post (self : CameraIface) : CameraIface :=
  { base := self.base.Post,
    data := { self.data with head := { self.data.head with time := self.base.postStamp } } }

/-- The library function `memcpy(dst, src, n)` on byte buffers indexed by offset. -/
def memcpy (dst src : Nat → Nat) (n : Nat) : Nat → Nat :=
  fun j => if j < n then src j else dst j

/-- The method `Generic_Camera::PutCameraData`, compiled with assertions enabled.  `cap` is
`sizeof(data->image)`; `lockResult` is what `Lock(1)` returns, which the code discards. -/
def Generic_Camera.PutCameraData (cap : Nat) (self : Generic_Camera) (lockResult : Bool) :
    Generic_Camera :=
  let p := self.myParent
  -- this->cameraIface->Lock(1);
  let c0 : CameraIface := { self.cameraIface with base := (self.cameraIface.base.Lock 1 lockResult).1 }
  -- data->head.time = Simulator::Instance()->GetSimTime().Double();
  let c1 := c0.store Loc.headTime (fun d => { d with head := { d.head with time := p.simTime } })
  -- data->width = this->myParent->GetImageWidth();
  let c2 := c1.store Loc.camWidth (fun d => { d with width := p.imageWidth % UINT_MOD })
  -- data->height = this->myParent->GetImageHeight();
  let c3 := c2.store Loc.camHeight (fun d => { d with height := p.imageHeight % UINT_MOD })
  -- data->image_size = data->width * data->height * this->myParent->GetImageDepth();
  let c4 := (((c3.load Loc.camWidth).load Loc.camHeight).store Loc.camImageSize
    (fun d => { d with image_size := (d.width * d.height * (p.imageDepth % UINT_MOD)) % UINT_MOD }))
  -- data->hfov = *(this->myParent->GetHFOV());
  let c5 := c4.store Loc.camHfov (fun d => { d with hfov := p.hfov })
  -- data->vfov = *(this->myParent->GetVFOV());
  let c6 := c5.store Loc.camVfov (fun d => { d with vfov := p.vfov })
  -- data->camera_pose.pos.x = cameraPose.pos.x;  (and y, z)
  let c7 := c6.store Loc.camPosePosX (fun d => { d with
    camera_pose := { d.camera_pose with pos := { d.camera_pose.pos with x := p.worldPose.pos.x } } })
  let c8 := c7.store Loc.camPosePosY (fun d => { d with
    camera_pose := { d.camera_pose with pos := { d.camera_pose.pos with y := p.worldPose.pos.y } } })
  let c9 := c8.store Loc.camPosePosZ (fun d => { d with
    camera_pose := { d.camera_pose with pos := { d.camera_pose.pos with z := p.worldPose.pos.z } } })
  -- data->camera_pose.roll = cameraPose.rot.GetRoll();  (and pitch, yaw)
  let c10 := c9.store Loc.camPoseRoll (fun d => { d with
    camera_pose := { d.camera_pose with roll := p.worldPose.roll } })
  let c11 := c10.store Loc.camPosePitch (fun d => { d with
    camera_pose := { d.camera_pose with pitch := p.worldPose.pitch } })
  let c12 := c11.store Loc.camPoseYaw (fun d => { d with
    camera_pose := { d.camera_pose with yaw := p.worldPose.yaw } })
  -- assert (data->image_size <= sizeof(data->image));
  let c13 := c12.load Loc.camImageSize
  if c13.data.image_size ≤ cap then
    -- boost::recursive_mutex::scoped_lock mr_lock(*Simulator::Instance()->GetMRMutex());
    let c14 : CameraIface := { c13 with base := c13.base.emit Event.mrLock }
    -- memcpy(dst, src, data->image_size);
    let c15 := (c14.load Loc.camImageSize).store Loc.camImage
      (fun d => { d with image := memcpy d.image p.imageData d.image_size })
    -- this->myParent->EnableSaveFrame( data->saveFrames );
    let c16 := c15.load Loc.camSaveFrames
    let c17 : CameraIface :=
      { c16 with base := c16.base.emit (Event.enableSaveFrame c16.data.saveFrames) }
    let p1 := { p with saveFrame := c16.data.saveFrames }
    -- this->cameraIface->Unlock();
    let c18 : CameraIface := { c17 with base := c17.base.Unlock }
    -- this->cameraIface->Post();
    let c19 : CameraIface := c18.Post
    { self with myParent := p1, cameraIface := c19 }
  else
    { self with
      cameraIface := { c13 with base := c13.base.emit Event.assertFail }
      aborted := true }

/-- Modelled from the spec: the body of `Iface::GetOpenCount` is not in `gazebo.h`; it "reads
the header's counter".  The read is recorded. -/
def CameraIface.GetOpenCount (self : CameraIface) : CameraIface × Int :=
  (self.load Loc.headOpenCount, self.data.head.openCount)

/-- The second statement of `Generic_Camera::UpdateChild` ("activate if iface open"):

```
if (this->cameraIface->Lock(1))
{
  if (this->cameraIface->GetOpenCount() > 0)
    this->myParent->SetActive(true);
  else
    this->myParent->SetActive(false);
  this->cameraIface->Unlock();
}
```

`lockUpd` is what `Lock(1)` returns. -/
def Generic_Camera.Activate (self : Generic_Camera) (lockUpd : Bool) : Generic_Camera :=
  -- if (this->cameraIface->Lock(1))
  let r := self.cameraIface.base.Lock 1 lockUpd
  let c1 : CameraIface := { self.cameraIface with base := r.1 }
  if r.2 then
    -- if (this->cameraIface->GetOpenCount() > 0) SetActive(true); else SetActive(false);
    let g := c1.GetOpenCount
    let a : Bool := decide (g.2 > 0)
    let c2 : CameraIface := { g.1 with base := g.1.base.emit (Event.setActive a) }
    -- this->cameraIface->Unlock();
    let c3 : CameraIface := { c2 with base := c2.base.Unlock }
    { self with myParent := { self.myParent with active := a }, cameraIface := c3 }
  else
    { self with cameraIface := c1 }

/-- The method `Generic_Camera::UpdateChild`, one tick of the controller:

```
if (this->myParent->IsActive())
  this->PutCameraData();
```

followed by the activation statement, which a process aborted in `PutCameraData` does not
reach.  `lockPut` is what the `Lock(1)` of `PutCameraData` returns, `lockUpd` what the
`Lock(1)` of `UpdateChild` returns. -/
def Generic_Camera.UpdateChild (cap : Nat) (self : Generic_Camera) (lockPut lockUpd : Bool) :
    Generic_Camera :=
  let s1 := if self.myParent.active then self.PutCameraData cap lockPut else self
  if s1.aborted then s1 else s1.Activate lockUpd

/-- A camera segment with every field zero. -/
def CameraData.zero : CameraData :=
  { head := GazeboData.zero, width := 0, height := 0, image_size := 0, image := fun _ => 0,
    hfov := 0, vfov := 0, camera_pose := ⟨⟨0, 0, 0⟩, 0, 0, 0⟩, saveFrames := false }

/-- A sensor delivering a `w` x `h` image of depth `d` whose bytes are all `7`. -/
def MonoCameraSensor.sample (active : Bool) (w h d : Nat) : MonoCameraSensor :=
  { active := active, imageWidth := w, imageHeight := h, imageDepth := d, hfov := 1, vfov := 2,
    worldPose := ⟨⟨3, 4, 5⟩, 6, 7, 8⟩, imageData := fun _ => 7, saveFrame := false,
    simTime := 9 }

/-- A controller over a zero segment with a handle that has issued no effect. -/
def Generic_Camera.sample (active : Bool) (w h d : Nat) : Generic_Camera :=
  { myParent := MonoCameraSensor.sample active w h d,
    cameraIface := { base := Iface.fresh, data := CameraData.zero },
    aborted := false }

/-- The value `PutCameraData` stores in `image_size`: the `unsigned int` product
`data->width * data->height * GetImageDepth()`. -/
def MonoCameraSensor.imageSize (p : MonoCameraSensor) : Nat :=
  ((p.imageWidth % UINT_MOD) * (p.imageHeight % UINT_MOD) * (p.imageDepth % UINT_MOD)) % UINT_MOD

/-- The number of bytes of the sensor's image: width times height times depth, as a natural
number. -/
def MonoCameraSensor.byteCount (p : MonoCameraSensor) : Nat :=
  p.imageWidth * p.imageHeight * p.imageDepth

/-- The effects of `PutCameraData` after its `Lock(1)` up to the evaluation of the asserted
condition. -/
def refreshEvents : List Event :=
  [Event.write Loc.headTime, Event.write Loc.camWidth, Event.write Loc.camHeight,
   Event.read Loc.camWidth, Event.read Loc.camHeight, Event.write Loc.camImageSize,
   Event.write Loc.camHfov, Event.write Loc.camVfov,
   Event.write Loc.camPosePosX, Event.write Loc.camPosePosY, Event.write Loc.camPosePosZ,
   Event.write Loc.camPoseRoll, Event.write Loc.camPosePitch, Event.write Loc.camPoseYaw,
   Event.read Loc.camImageSize]

/-- The effects of `PutCameraData` after a passed assertion up to the read of `saveFrames`. -/
def copyEvents (saveFrames : Bool) : List Event :=
  [Event.mrLock, Event.read Loc.camImageSize, Event.write Loc.camImage,
   Event.read Loc.camSaveFrames, Event.enableSaveFrame saveFrames]

/-! ## The device variants -/

/-- The device variants `gazebo.h` defines with an inline constructor. -/
inductive Variant where
  | PositionIface
  | ImuIface
  | LaserIface
  | FiducialIface
  | FactoryIface
  | GripperIface
  | ActarrayIface
  | PTZIface
  | BumperIface
  | OpaqueIface
  | IRIface
deriving DecidableEq, Repr

/-- The values of `sizeof` the constructors use.  They depend on the platform and are
parameters: `head` is `sizeof(GazeboData)`, `payload v` the number of bytes the data struct of
`v` has after its leading `GazeboData head` member, `ifaceClass v` is `sizeof` of the interface
class of `v` itself (`sizeof(PositionIface)`, ...). -/
structure Sizeof where
  head : Nat
  payload : Variant → Nat
  ifaceClass : Variant → Nat

/-- The size of the data struct of a variant (`sizeof(PositionData)`, ...): the header followed
by the payload. -/
def Sizeof.dataStruct (sz : Sizeof) (v : Variant) : Nat :=
  sz.head + sz.payload v

/-- The arguments a variant's constructor passes to `Iface::Iface(type, size)`. -/
structure IfaceArgs where
  type : String
  size : Nat
deriving DecidableEq, Repr

/-- The base-class initialisers of the variants' constructors, for example
`PositionIface():Iface("position", sizeof(PositionIface)+sizeof(PositionData)) {}`. -/
def Variant.ctor (sz : Sizeof) : Variant → IfaceArgs
  | .PositionIface =>
    { type := "position", size := sz.ifaceClass .PositionIface + sz.dataStruct .PositionIface }
  | .ImuIface =>
    { type := "imu", size := sz.ifaceClass .ImuIface + sz.dataStruct .ImuIface }
  | .LaserIface =>
    { type := "laser", size := sz.ifaceClass .LaserIface + sz.dataStruct .LaserIface }
  | .FiducialIface =>
    { type := "fiducial", size := sz.ifaceClass .FiducialIface + sz.dataStruct .FiducialIface }
  | .FactoryIface =>
    { type := "factory", size := sz.ifaceClass .FactoryIface + sz.dataStruct .FactoryIface }
  | .GripperIface =>
    { type := "gripper", size := sz.ifaceClass .GripperIface + sz.dataStruct .GripperIface }
  | .ActarrayIface =>
    { type := "actarray", size := sz.ifaceClass .ActarrayIface + sz.dataStruct .ActarrayIface }
  | .PTZIface =>
    { type := "ptz", size := sz.ifaceClass .PTZIface + sz.dataStruct .PTZIface }
  | .BumperIface =>
    { type := "bumper", size := sz.ifaceClass .BumperIface + sz.dataStruct .BumperIface }
  | .OpaqueIface =>
    { type := "opaque", size := sz.ifaceClass .OpaqueIface + sz.dataStruct .OpaqueIface }
  | .IRIface =>
    { type := "irarray", size := sz.ifaceClass .IRIface + sz.dataStruct .IRIface }

/-- A sample table of sizes, of the order an LP64 platform gives for the position variant: a
header of 72 bytes, a payload of 80 bytes and an interface class of 160 bytes, for every
variant. -/
def Sizeof.sample : Sizeof :=
  { head := 72, payload := fun _ => 80, ifaceClass := fun _ => 160 }

/-! ## Kind tags, request tags, capacities and client ids -/

/-- The device variants `gazebo.h` defines with an inline constructor, in the order of the
file. -/
def Variant.all : List Variant :=
  [.PositionIface, .ImuIface, .LaserIface, .FiducialIface, .FactoryIface, .GripperIface,
   .ActarrayIface, .PTZIface, .BumperIface, .OpaqueIface, .IRIface]

/-- The request tags in the order the specification lists them: Pause, Unpause, Reset, Save,
GetPose3D, GetPose2D, SetPose3D, SetPose2D, SetBodyPose2D, SetState, GetState, Go,
GetModelType, GetNumModels, GetNumChildren, GetChildName, GetModelName, GetModelFiducialId,
GetModelExtent, GetModelInterfaces, GetInterfaceType. -/
def RequestType.specOrder : List RequestType :=
  [RequestType.PAUSE, RequestType.UNPAUSE, RequestType.RESET, RequestType.SAVE,
   RequestType.GET_POSE3D, RequestType.GET_POSE2D, RequestType.SET_POSE3D,
   RequestType.SET_POSE2D, RequestType.SET_B_POSE2D, RequestType.SET_STATE,
   RequestType.GET_STATE, RequestType.GO, RequestType.GET_MODEL_TYPE,
   RequestType.GET_NUM_MODELS, RequestType.GET_NUM_CHILDREN, RequestType.GET_CHILD_NAME,
   RequestType.GET_MODEL_NAME, RequestType.GET_MODEL_FIDUCIAL_ID,
   RequestType.GET_MODEL_EXTENT, RequestType.GET_MODEL_INTERFACES,
   RequestType.GET_INTERFACE_TYPE]

/-- The constant `GZ_LASER_MAX_RANGES`. -/
def GZ_LASER_MAX_RANGES : Nat := 1024

/-- The constant `GZ_FIDUCIAL_MAX_FIDS`. -/
def GZ_FIDUCIAL_MAX_FIDS : Nat := 401

/-- The constant `GAZEBO_ACTARRAY_MAX_NUM_ACTUATORS`. -/
def GAZEBO_ACTARRAY_MAX_NUM_ACTUATORS : Nat := 16

/-- The constant `GAZEBO_MAX_OPAQUE_DATA`, defined as `1024*1024*8`. -/
def GAZEBO_MAX_OPAQUE_DATA : Nat := 1024 * 1024 * 8

/-- Extent of `LaserData::ranges`, declared `float ranges[GZ_LASER_MAX_RANGES]`. -/
def LaserData.rangesExtent : Nat := GZ_LASER_MAX_RANGES

/-- Extent of `LaserData::intensity`, declared `int intensity[GZ_LASER_MAX_RANGES]`. -/
def LaserData.intensityExtent : Nat := GZ_LASER_MAX_RANGES

/-- Extent of `FiducialData::fids`, declared `FiducialFid fids[GZ_FIDUCIAL_MAX_FIDS]`. -/
def FiducialData.fidsExtent : Nat := GZ_FIDUCIAL_MAX_FIDS

/-- Extent of `ActarrayData::actuators`, declared
`ActarrayActuator actuators[GAZEBO_ACTARRAY_MAX_NUM_ACTUATORS]`. -/
def ActarrayData.actuatorsExtent : Nat := GAZEBO_ACTARRAY_MAX_NUM_ACTUATORS

/-- Extent of `OpaqueData::data`, declared `uint8_t data[GAZEBO_MAX_OPAQUE_DATA]`. -/
def OpaqueData.dataExtent : Nat := GAZEBO_MAX_OPAQUE_DATA

/-- Extent of `FactoryData::newModel`, declared `uint8_t newModel[409600]`. -/
def FactoryData.newModelExtent : Nat := 409600

/-- Extent of `SimulationData::requests`, declared
`SimulationRequestData requests[GAZEBO_SIMULATION_MAX_REQUESTS]`. -/
def SimulationData.requestsExtent : Nat := GAZEBO_SIMULATION_MAX_REQUESTS

/-- Extent of `SimulationData::responses`, declared
`SimulationRequestData responses[GAZEBO_SIMULATION_MAX_REQUESTS]`. -/
def SimulationData.responsesExtent : Nat := GAZEBO_SIMULATION_MAX_REQUESTS

/-- The constant `GZ_CLIENT_ID_USER_FIRST`. -/
def GZ_CLIENT_ID_USER_FIRST : Nat := 0x00

/-- The constant `GZ_CLIENT_ID_USER_LAST`. -/
def GZ_CLIENT_ID_USER_LAST : Nat := 0x07

/-- The constant `GZ_CLIENT_ID_WXGAZEBO`. -/
def GZ_CLIENT_ID_WXGAZEBO : Nat := 0x08

/-- The constant `GZ_CLIENT_ID_PLAYER`. -/
def GZ_CLIENT_ID_PLAYER : Nat := 0x09

/-- The ids user programs may use: "numbers in the range GZ_SEM_NUM_USER to
GZ_SEM_NUM_USER_LAST, inclusive", the range the two `USER` constants delimit. -/
def userClientIds : List Nat :=
  (List.range (GZ_CLIENT_ID_USER_LAST + 1)).filter (fun i => decide (GZ_CLIENT_ID_USER_FIRST ≤ i))

/-- The ids reserved for the well-known client roles. -/
def reservedClientIds : List Nat :=
  [GZ_CLIENT_ID_WXGAZEBO, GZ_CLIENT_ID_PLAYER]

/-! ## Open and Close on the header of a segment -/

/-- The largest value of an `int`, the type of `GazeboData::openCount`. -/
def INT_MAX : Int := 2 ^ 31 - 1

/-- Modelled from the spec: the body of `Iface::Open` is not in `gazebo.h`.  The spec has it
map the existing region, fail with NotFound, VersionMismatch or TypeMismatch, and increment
`openCount`.  A failed `Open` leaves the header as it is.  The result is `none` where neither
the spec nor the language defines one: when the incremented count does not fit the `int`
field. -/
def GazeboData.Open (h : GazeboData) (ok : Bool) : Option GazeboData :=
  if ok then
    if h.openCount < INT_MAX then some { h with openCount := h.openCount + 1 } else none
  else some h

/-- Modelled from the spec: the body of `Iface::Close` is not in `gazebo.h`.  The spec has it
decrement `openCount` and unmap, "balanced with exactly one prior Open", the count being a
non-negative integer.  The spec defines `Close` on a segment some handle has open, that is
with a count above 0; for a `Close` without a prior `Open` it defines no result (it does not
say whether `Close` is guarded), and the result is `none`. -/
def GazeboData.Close (h : GazeboData) : Option GazeboData :=
  if 0 < h.openCount then some { h with openCount := h.openCount - 1 } else none

/-- The data members of the class `Iface`.  Pointers are addresses, `none` for `NULL`. -/
structure IfaceMembers where
  server : Option Nat
  client : Option Nat
  mmapFd : Int
  mMap : Option Nat
  filename : String
  type : String
  id : String
  creator : Bool
  size : Nat
deriving DecidableEq, Repr

/-- What a call of a base-class method leaves: the members, and whether the call returned
normally.  The methods return `void`, so a failure is a thrown exception: `ok = false`. -/
structure BaseOutcome where
  members : IfaceMembers
  ok : Bool
deriving DecidableEq, Repr

/-- The methods `Iface::Create(server, id)` and `Iface::Open(client, id)`, whose bodies are not
in `gazebo.h`: parameters of the model. -/
structure IfaceOps where
  Create : IfaceMembers → Nat → String → BaseOutcome
  Open : IfaceMembers → Nat → String → BaseOutcome

/-- A handle of a device variant: the members inherited from `Iface` and the pointer `data`,
whose static type is the data struct of the variant. -/
structure DeviceIface where
  kind : Variant
  members : IfaceMembers
  data : Option Nat
deriving DecidableEq, Repr

/-- The method `Create(server, id)` of each device variant, for example

```
Iface::Create(server,id);
this->data = (PositionData*)this->mMap;
```

An exception thrown by the base call skips the assignment and propagates: the second component
of the result is false. -/
def DeviceIface.Create (ops : IfaceOps) (self : DeviceIface) (server : Nat) (id : String) :
    DeviceIface × Bool :=
  match self.kind with
  | .PositionIface =>
    -- Iface::Create(server,id);
    let r := ops.Create self.members server id
    -- this->data = (PositionData*)this->mMap;
    if r.ok then ({ self with members := r.members, data := r.members.mMap }, true)
    else ({ self with members := r.members }, false)
  | .ImuIface =>
    -- Iface::Create(server,id);
    let r := ops.Create self.members server id
    -- this->data = (ImuData*)this->mMap;
    if r.ok then ({ self with members := r.members, data := r.members.mMap }, true)
    else ({ self with members := r.members }, false)
  | .LaserIface =>
    -- Iface::Create(server,id);
    let r := ops.Create self.members server id
    -- this->data = (LaserData*)this->mMap;
    if r.ok then ({ self with members := r.members, data := r.members.mMap }, true)
    else ({ self with members := r.members }, false)
  | .FiducialIface =>
    -- Iface::Create(server,id);
    let r := ops.Create self.members server id
    -- this->data = (FiducialData*)this->mMap;
    if r.ok then ({ self with members := r.members, data := r.members.mMap }, true)
    else ({ self with members := r.members }, false)
  | .FactoryIface =>
    -- Iface::Create(server,id);
    let r := ops.Create self.members server id
    -- this->data = (FactoryData*)this->mMap;
    if r.ok then ({ self with members := r.members, data := r.members.mMap }, true)
    else ({ self with members := r.members }, false)
  | .GripperIface =>
    -- Iface::Create(server,id);
    let r := ops.Create self.members server id
    -- this->data = (GripperData*)this->mMap;
    if r.ok then ({ self with members := r.members, data := r.members.mMap }, true)
    else ({ self with members := r.members }, false)
  | .ActarrayIface =>
    -- Iface::Create(server,id);
    let r := ops.Create self.members server id
    -- this->data = (ActarrayData*)this->mMap;
    if r.ok then ({ self with members := r.members, data := r.members.mMap }, true)
    else ({ self with members := r.members }, false)
  | .PTZIface =>
    -- Iface::Create(server,id);
    let r := ops.Create self.members server id
    -- this->data = (PTZData*)this->mMap;
    if r.ok then ({ self with members := r.members, data := r.members.mMap }, true)
    else ({ self with members := r.members }, false)
  | .BumperIface =>
    -- Iface::Create(server,id);
    let r := ops.Create self.members server id
    -- this->data = (BumperData*)this->mMap;
    if r.ok then ({ self with members := r.members, data := r.members.mMap }, true)
    else ({ self with members := r.members }, false)
  | .OpaqueIface =>
    -- Iface::Create(server,id);
    let r := ops.Create self.members server id
    -- this->data = (OpaqueData*)this->mMap;
    if r.ok then ({ self with members := r.members, data := r.members.mMap }, true)
    else ({ self with members := r.members }, false)
  | .IRIface =>
    -- Iface::Create(server,id);
    let r := ops.Create self.members server id
    -- this->data = (IRData*)this->mMap;
    if r.ok then ({ self with members := r.members, data := r.members.mMap }, true)
    else ({ self with members := r.members }, false)

/-- The method `Open(client, id)` of each device variant, for example

```
Iface::Open(client,id);
this->data = (PositionData*)this->mMap;
```

An exception thrown by the base call skips the assignment and propagates: the second component
of the result is false. -/
def DeviceIface.Open (ops : IfaceOps) (self : DeviceIface) (client : Nat) (id : String) :
    DeviceIface × Bool :=
  match self.kind with
  | .PositionIface =>
    -- Iface::Open(client,id);
    let r := ops.Open self.members client id
    -- this->data = (PositionData*)this->mMap;
    if r.ok then ({ self with members := r.members, data := r.members.mMap }, true)
    else ({ self with members := r.members }, false)
  | .ImuIface =>
    -- Iface::Open(client,id);
    let r := ops.Open self.members client id
    -- this->data = (ImuData*)this->mMap;
    if r.ok then ({ self with members := r.members, data := r.members.mMap }, true)
    else ({ self with members := r.members }, false)
  | .LaserIface =>
    -- Iface::Open(client,id);
    let r := ops.Open self.members client id
    -- this->data = (LaserData*)this->mMap;
    if r.ok then ({ self with members := r.members, data := r.members.mMap }, true)
    else ({ self with members := r.members }, false)
  | .FiducialIface =>
    -- Iface::Open(client,id);
    let r := ops.Open self.members client id
    -- this->data = (FiducialData*)this->mMap;
    if r.ok then ({ self with members := r.members, data := r.members.mMap }, true)
    else ({ self with members := r.members }, false)
  | .FactoryIface =>
    -- Iface::Open(client,id);
    let r := ops.Open self.members client id
    -- this->data = (FactoryData*)this->mMap;
    if r.ok then ({ self with members := r.members, data := r.members.mMap }, true)
    else ({ self with members := r.members }, false)
  | .GripperIface =>
    -- Iface::Open(client,id);
    let r := ops.Open self.members client id
    -- this->data = (GripperData*)this->mMap;
    if r.ok then ({ self with members := r.members, data := r.members.mMap }, true)
    else ({ self with members := r.members }, false)
  | .ActarrayIface =>
    -- Iface::Open(client,id);
    let r := ops.Open self.members client id
    -- this->data = (ActarrayData*)this->mMap;
    if r.ok then ({ self with members := r.members, data := r.members.mMap }, true)
    else ({ self with members := r.members }, false)
  | .PTZIface =>
    -- Iface::Open(client,id);
    let r := ops.Open self.members client id
    -- this->data = (PTZData*)this->mMap;
    if r.ok then ({ self with members := r.members, data := r.members.mMap }, true)
    else ({ self with members := r.members }, false)
  | .BumperIface =>
    -- Iface::Open(client,id);
    let r := ops.Open self.members client id
    -- this->data = (BumperData*)this->mMap;
    if r.ok then ({ self with members := r.members, data := r.members.mMap }, true)
    else ({ self with members := r.members }, false)
  | .OpaqueIface =>
    -- Iface::Open(client,id);
    let r := ops.Open self.members client id
    -- this->data = (OpaqueData*)this->mMap;
    if r.ok then ({ self with members := r.members, data := r.members.mMap }, true)
    else ({ self with members := r.members }, false)
  | .IRIface =>
    -- Iface::Open(client,id);
    let r := ops.Open self.members client id
    -- this->data = (IRData*)this->mMap;
    if r.ok then ({ self with members := r.members, data := r.members.mMap }, true)
    else ({ self with members := r.members }, false)

/-- The specification of a variant's `Create`: the base `Iface::Create(server, id)` followed,
when it returned, by `data := mMap`. -/
def DeviceIface.specCreate (ops : IfaceOps) (self : DeviceIface) (server : Nat) (id : String) :
    DeviceIface × Bool :=
  let afterBase : DeviceIface := { self with members := (ops.Create self.members server id).members }
  if (ops.Create self.members server id).ok then
    ({ afterBase with data := afterBase.members.mMap }, true)
  else (afterBase, false)

/-- The specification of a variant's `Open`: the base `Iface::Open(client, id)` followed, when
it returned, by `data := mMap`. -/
def DeviceIface.specOpen (ops : IfaceOps) (self : DeviceIface) (client : Nat) (id : String) :
    DeviceIface × Bool :=
  let afterBase : DeviceIface := { self with members := (ops.Open self.members client id).members }
  if (ops.Open self.members client id).ok then
    ({ afterBase with data := afterBase.members.mMap }, true)
  else (afterBase, false)

/-- Sample base methods: both map the region at address 4096 and record their arguments; they
fail, mapping nothing, on the empty id. -/
def IfaceOps.sample : IfaceOps :=
  { Create := fun m server id =>
      if id = "" then { members := m, ok := false }
      else { members := { m with server := some server, mMap := some 4096, id := id,
                                  creator := true }, ok := true }
    Open := fun m client id =>
      if id = "" then { members := m, ok := false }
      else { members := { m with client := some client, mMap := some 4096, id := id },
             ok := true } }

/-- A handle of the given variant as constructed: nothing mapped, `data` not set. -/
def DeviceIface.sample (v : Variant) : DeviceIface :=
  { kind := v,
    members := { server := none, client := none, mmapFd := 0, mMap := none, filename := "",
                 type := (Variant.ctor Sizeof.sample v).type, id := "", creator := false,
                 size := (Variant.ctor Sizeof.sample v).size },
    data := none }

/-! ## Sequences of ticks of the camera controller -/

/-- What the clients' `Open` and `Close` calls between two ticks do to the camera segment: the
open count of the header becomes `n`. -/
def Generic_Camera.setOpenCount (self : Generic_Camera) (n : Int) : Generic_Camera :=
  { self with
    cameraIface := { self.cameraIface with
      data := { self.cameraIface.data with
        head := { self.cameraIface.data.head with openCount := n } } } }

/-- Whether a list of effects contains a call of `PutCameraData`: its first effect after
`Lock(1)` is the write of the timestamp, which no other statement of the controller makes. -/
def publishes (ev : List Event) : Bool :=
  ev.contains (Event.write Loc.headTime)

/-- A sequence of ticks in which every `Lock(1)` returns true; before tick `t` the clients have
brought the open count to the `t`-th element of the list.  The result tells for each tick
whether it called `PutCameraData`. -/
def Generic_Camera.runTicks (cap : Nat) : Generic_Camera → List Int → List Bool
  | _, [] => []
  | cam, n :: ns =>
    publishes (((cam.setOpenCount n).UpdateChild cap true true).cameraIface.base.since
        (cam.setOpenCount n).cameraIface.base) ::
      Generic_Camera.runTicks cap ((cam.setOpenCount n).UpdateChild cap true true) ns

/-! ## The methods the device variants inherit -/

/-- The methods `Close`, `Destroy`, `Lock`, `Unlock` and `Post` of `Iface`, which no device
variant overrides.  Their bodies are not in `gazebo.h`: parameters of the model.  They are
methods of the base class, so they act on the members of `Iface`; the member `data` is declared
by the derived classes and is not in their scope. -/
structure IfaceInherited where
  Close : IfaceMembers → IfaceMembers
  Destroy : IfaceMembers → IfaceMembers
  Lock : IfaceMembers → Int → IfaceMembers × Bool
  Unlock : IfaceMembers → IfaceMembers × Int
  Post : IfaceMembers → IfaceMembers

/-- The call `Close()` on a handle of a device variant: `Iface::Close`. -/
def DeviceIface.Close (inh : IfaceInherited) (self : DeviceIface) : DeviceIface :=
  { self with members := inh.Close self.members }

/-- The call `Destroy()` on a handle of a device variant: `Iface::Destroy`. -/
def DeviceIface.Destroy (inh : IfaceInherited) (self : DeviceIface) : DeviceIface :=
  { self with members := inh.Destroy self.members }

/-- The call `Lock(blocking)` on a handle of a device variant: `Iface::Lock`. -/
def DeviceIface.Lock (inh : IfaceInherited) (self : DeviceIface) (blocking : Int) :
    DeviceIface × Bool :=
  ({ self with members := (inh.Lock self.members blocking).1 },
   (inh.Lock self.members blocking).2)

/-- The call `Unlock()` on a handle of a device variant: `Iface::Unlock`. -/
def DeviceIface.Unlock (inh : IfaceInherited) (self : DeviceIface) : DeviceIface × Int :=
  ({ self with members := (inh.Unlock self.members).1 }, (inh.Unlock self.members).2)

/-- The call `Post()` on a handle of a device variant: `Iface::Post`. -/
def DeviceIface.Post (inh : IfaceInherited) (self : DeviceIface) : DeviceIface :=
  { self with members := inh.Post self.members }

/-- The body of the destructor of each device variant. -/
def DeviceIface.destructor (self : DeviceIface) : DeviceIface :=
  match self.kind with
  | .PositionIface =>
    -- virtual ~PositionIface() {this->data = NULL;}
    { self with data := none }
  | .ImuIface =>
    -- virtual ~ImuIface() {this->data = NULL;}
    { self with data := none }
  | .LaserIface =>
    -- virtual ~LaserIface() {this->data = NULL;}
    { self with data := none }
  | .FiducialIface =>
    -- virtual ~FiducialIface() {this->data = NULL;}
    { self with data := none }
  | .FactoryIface =>
    -- virtual ~FactoryIface() {this->data = NULL;}
    { self with data := none }
  | .GripperIface =>
    -- virtual ~GripperIface() {this->data = NULL;}
    { self with data := none }
  | .ActarrayIface =>
    -- virtual ~ActarrayIface() {this->data = NULL;}
    { self with data := none }
  | .PTZIface =>
    -- virtual ~PTZIface() {this->data = NULL;}
    { self with data := none }
  | .BumperIface =>
    -- virtual ~BumperIface() {this->data = NULL;}
    { self with data := none }
  | .OpaqueIface =>
    -- virtual ~OpaqueIface() {this->data = NULL;}
    { self with data := none }
  | .IRIface =>
    -- virtual ~IRIface() {this->data = NULL;}
    { self with data := none }

/-- Sample inherited methods: `Close` unmaps the region and closes the file, `Destroy` does the
same for the creator only, `Lock` and `Unlock` succeed and `Post` changes nothing. -/
def IfaceInherited.sample : IfaceInherited :=
  { Close := fun m => { m with mMap := none, mmapFd := -1 }
    Destroy := fun m => if m.creator then { m with mMap := none, mmapFd := -1 } else m
    Lock := fun m _ => (m, true)
    Unlock := fun m => (m, 0)
    Post := fun m => m }

/-- A simulation handle over a segment with one pending request whose slot 1 still holds an
earlier, already consumed `SET_POSE2D` request for the model "r1". -/
def SimulationIface.stale : SimulationIface Nat :=
  { SimulationIface.fresh Nat 1 with
    data := { SimulationData.withCount 1 with
      requests := fun i =>
        if i = 1 then
          { SimulationRequestData.zero with
            type := RequestType.SET_POSE2D, modelName := [114, 49], uintValue := 5,
            runTime := 9 }
        else SimulationRequestData.zero } }

/-! ## Theorems -/

/-! ### Helper lemmas on traces and on `Go` -/

theorem since_append (a b : Iface) (ev : List Event) (h : a.trace = b.trace ++ ev) :
    a.since b = ev := by
  simp [Iface.since, h]

theorem GoIssue_trace {σ : Type} (h : SimulationIface σ) (us : Nat) (lockResult : Bool) :
    (h.GoIssue us lockResult).base.trace = h.base.trace ++
      [Event.lock 1, Event.read Loc.requestCount, Event.write Loc.requestCount,
       Event.write (Loc.requestType h.data.requestCount),
       Event.write (Loc.requestRunTime h.data.requestCount), Event.unlock] := by
  simp [SimulationIface.GoIssue, Iface.Lock, Iface.Unlock, Iface.emit]

theorem GoConnect_trace {σ : Type} (h : SimulationIface σ) (s : σ) :
    (h.GoConnect s).base.trace = h.base.trace ++
      ((if h.currentConnection.connected h.goAckSignal then [Event.disconnect] else []) ++
        [Event.connect]) := by
  unfold SimulationIface.GoConnect
  by_cases hc : h.currentConnection.connected h.goAckSignal = true <;>
    simp [hc, Iface.emit]

theorem GoIssue_signal {σ : Type} (h : SimulationIface σ) (us : Nat) (lockResult : Bool) :
    (h.GoIssue us lockResult).goAckSignal = h.goAckSignal ∧
      (h.GoIssue us lockResult).currentConnection = h.currentConnection := by
  simp [SimulationIface.GoIssue]

theorem GoConnect_slots {σ : Type} (h : SimulationIface σ) (s : σ)
    (hwf : ∀ p ∈ h.goAckSignal.slots, h.currentConnection.id = some p.1) :
    (h.GoConnect s).goAckSignal.slots = [(h.goAckSignal.nextId, s)] ∧
      (h.GoConnect s).currentConnection.id = some h.goAckSignal.nextId := by
  unfold SimulationIface.GoConnect
  by_cases hc : h.currentConnection.connected h.goAckSignal = true
  · cases hid : h.currentConnection.id with
    | none => simp [Connection.connected, hid] at hc
    | some i =>
      have hall : ∀ p ∈ h.goAckSignal.slots, p.1 = i := by
        intro p hp
        have := hwf p hp
        rw [hid] at this
        exact (Option.some.inj this).symm
      have hfil : h.goAckSignal.slots.filter (fun p => p.1 != i) = [] := by
        rw [List.filter_eq_nil_iff]
        intro p hp
        simp [hall p hp]
      simp [hc, Connection.disconnect, hid, Signal.connect, hfil]
  · have hnil : h.goAckSignal.slots = [] := by
      cases hs : h.goAckSignal.slots with
      | nil => rfl
      | cons p ps =>
        exfalso
        apply hc
        have hp : h.currentConnection.id = some p.1 := hwf p (by simp [hs])
        simp [Connection.connected, hp, hs]
    simp [hc, Signal.connect, hnil]

theorem Go_slots {σ : Type} (h : SimulationIface σ) (us : Nat) (s : σ) (lockResult : Bool)
    (hwf : ∀ p ∈ h.goAckSignal.slots, h.currentConnection.id = some p.1) :
    (h.Go us s lockResult).goAckSignal.slots = [(h.goAckSignal.nextId, s)] ∧
      (h.Go us s lockResult).currentConnection.id = some h.goAckSignal.nextId := by
  have hsig := GoIssue_signal h us lockResult
  have := GoConnect_slots (h.GoIssue us lockResult) s (by rw [hsig.1, hsig.2]; exact hwf)
  rw [hsig.1] at this
  exact this

theorem GoSeq_append {σ : Type} (h : SimulationIface σ) (cs ds : List (GoCall σ)) :
    h.GoSeq (cs ++ ds) = (h.GoSeq cs).GoSeq ds := by
  induction cs generalizing h with
  | nil => rfl
  | cons c cs ih => simp [SimulationIface.GoSeq, ih]

theorem layout_of_stale_pointer :
    SimulationRequestData.sizeof = 132708 ∧
      SimulationRequestData.offsetRunTime = 1628 ∧
      SimulationData.offsetRequest GAZEBO_SIMULATION_MAX_REQUESTS +
          SimulationRequestData.offsetType = SimulationData.offsetRequestCount ∧
      (∀ i : Nat, GAZEBO_SIMULATION_MAX_REQUESTS < i →
        SimulationData.offsetRequest i + SimulationRequestData.offsetType =
          SimulationData.offsetResponse (i - (GAZEBO_SIMULATION_MAX_REQUESTS + 1)) +
            SimulationRequestData.offsetNChildInterfaces) ∧
      (∀ i : Nat, GAZEBO_SIMULATION_MAX_REQUESTS ≤ i →
        SimulationData.offsetRequest i + SimulationRequestData.offsetRunTime =
          SimulationData.offsetResponse (i - GAZEBO_SIMULATION_MAX_REQUESTS) +
            SimulationRequestData.offsetModelAngularAccelZ) ∧
      (∀ i : Nat, 2 * GAZEBO_SIMULATION_MAX_REQUESTS < i →
        SimulationData.offsetEnd ≤
          SimulationData.offsetRequest i + SimulationRequestData.offsetType) ∧
      (∀ i : Nat, 2 * GAZEBO_SIMULATION_MAX_REQUESTS ≤ i →
        SimulationData.offsetEnd ≤
          SimulationData.offsetRequest i + SimulationRequestData.offsetRunTime) := by
  refine ⟨by decide, by decide, by decide, ?_, ?_, ?_, ?_⟩ <;>
    intro i hi <;>
    simp only [SimulationData.offsetRequest, SimulationData.offsetResponse,
      SimulationData.offsetRequestCount, SimulationData.offsetEnd,
      SimulationRequestData.sizeof, SimulationRequestData.offsetType,
      SimulationRequestData.offsetRunTime, SimulationRequestData.offsetNChildInterfaces,
      SimulationRequestData.offsetModelAngularAccelZ, GAZEBO_SIMULATION_MAX_REQUESTS,
      GAZEBO_MAX_NUMBER_OF_CHILDREN] at * <;>
    omega

theorem Go_keeps_issue_data {σ : Type} (h : SimulationIface σ) (us : Nat) (s : σ)
    (lockResult : Bool) : (h.Go us s lockResult).data = (h.GoIssue us lockResult).data := by
  by_cases hc : (h.GoIssue us lockResult).currentConnection.connected
      (h.GoIssue us lockResult).goAckSignal = true <;>
    simp [SimulationIface.Go, SimulationIface.GoConnect, hc]

theorem GoIssue_in_range {σ : Type} (h : SimulationIface σ) (us : Nat) (lockResult : Bool)
    (hlt : h.data.requestCount < GAZEBO_SIMULATION_MAX_REQUESTS) :
    (h.GoIssue us lockResult).data.requestCount = (h.data.requestCount + 1) % UINT_MOD ∧
      (h.GoIssue us lockResult).data.requests =
        setAt h.data.requests h.data.requestCount
          { h.data.requests h.data.requestCount with
            type := RequestType.GO, runTime := us % UINT_MOD } ∧
      (h.GoIssue us lockResult).data.responses = h.data.responses ∧
      (h.GoIssue us lockResult).data.responseCount = h.data.responseCount ∧
      (h.GoIssue us lockResult).data.simTime = h.data.simTime ∧
      (h.GoIssue us lockResult).data.pauseTime = h.data.pauseTime ∧
      (h.GoIssue us lockResult).data.realTime = h.data.realTime ∧
      (h.GoIssue us lockResult).data.state = h.data.state ∧
      (h.GoIssue us lockResult).data.head = h.data.head ∧
      (h.GoIssue us lockResult).data.semId = h.data.semId ∧
      (h.GoIssue us lockResult).data.semKey = h.data.semKey := by
  refine ⟨?_, ?_, ?_, ?_, ?_, ?_, ?_, ?_, ?_, ?_, ?_⟩ <;>
    try simp [SimulationIface.GoIssue, SimulationData.storeType, SimulationData.storeRunTime,
      hlt]
  funext j
  by_cases hj : j = h.data.requestCount <;> simp [setAt, hj]

theorem Go_data {σ : Type} (h : SimulationIface σ) (us : Nat) (s : σ) (lockResult : Bool)
    (hlt : h.data.requestCount < GAZEBO_SIMULATION_MAX_REQUESTS) :
    (h.Go us s lockResult).data.requestCount = (h.data.requestCount + 1) % UINT_MOD ∧
      (h.Go us s lockResult).data.requests =
        setAt h.data.requests h.data.requestCount
          { h.data.requests h.data.requestCount with
            type := RequestType.GO, runTime := us % UINT_MOD } := by
  rw [Go_keeps_issue_data]
  exact ⟨(GoIssue_in_range h us lockResult hlt).1, (GoIssue_in_range h us lockResult hlt).2.1⟩

/-! ### The claims on `SimulationIface::Go` -/

/-- C1 (code defect): at a full ring, `requestCount = 128`, `Go` performs no capacity check.
It issues its usual effects, with no assertion and no error, and stores through
`&requests[128]`, one record past the end of the array.  The store of the tag lands on
`requestCount`, which ends at 11, the value of `GO`, instead of staying 128; the store of the
run time lands on `responses[0].modelAngularAccel.z`, which changes from 0 to 5; the slots of
`requests` are as before. -/
theorem C1_Go_full_ring_overrun :
    (SimulationIface.fresh Nat GAZEBO_SIMULATION_MAX_REQUESTS).data.requestCount = 128 ∧
      ((SimulationIface.fresh Nat GAZEBO_SIMULATION_MAX_REQUESTS).Go 5 0 true).data.requestCount
        = 11 ∧
      (((SimulationIface.fresh Nat GAZEBO_SIMULATION_MAX_REQUESTS).data.responses
        0).modelAngularAccel).z = 0 ∧
      ((((SimulationIface.fresh Nat GAZEBO_SIMULATION_MAX_REQUESTS).Go 5 0 true).data.responses
        0).modelAngularAccel).z = 5 ∧
      ((SimulationIface.fresh Nat GAZEBO_SIMULATION_MAX_REQUESTS).Go 5 0 true).data.requests =
        (SimulationIface.fresh Nat GAZEBO_SIMULATION_MAX_REQUESTS).data.requests ∧
      ((SimulationIface.fresh Nat GAZEBO_SIMULATION_MAX_REQUESTS).Go 5 0 true).base.trace =
        [Event.lock 1, Event.read Loc.requestCount, Event.write Loc.requestCount,
         Event.write (Loc.requestType 128), Event.write (Loc.requestRunTime 128),
         Event.unlock, Event.connect] := by
  refine ⟨by decide, by decide, by decide, by decide, rfl, by decide⟩

/-- C2: on a segment with `requestCount = n < 128`, for every `unsigned int` value `us`, after
`Go(us, subscriber)` the slot `requests[n]` has type `GO` and `runTime = us`, and
`requestCount = n + 1`; whatever `Lock(1)` returned. -/
theorem C2_Go_appends_at_requestCount {σ : Type} (h : SimulationIface σ) (n us : Nat) (s : σ)
    (lockResult : Bool) (hn : h.data.requestCount = n)
    (hlt : n < GAZEBO_SIMULATION_MAX_REQUESTS) (hus : us < UINT_MOD) :
    ((h.Go us s lockResult).data.requests n).type = RequestType.GO ∧
      ((h.Go us s lockResult).data.requests n).runTime = us ∧
      (h.Go us s lockResult).data.requestCount = n + 1 := by
  have hn1 : (n + 1) % UINT_MOD = n + 1 := by
    apply Nat.mod_eq_of_lt
    simp only [GAZEBO_SIMULATION_MAX_REQUESTS, UINT_MOD] at *
    omega
  have hus1 : us % UINT_MOD = us := Nat.mod_eq_of_lt hus
  subst hn
  have hd := Go_data h us s lockResult hlt
  refine ⟨?_, ?_, ?_⟩
  · rw [hd.2]
    simp [setAt]
  · rw [hd.2]
    simp [setAt, hus1]
  · rw [hd.1, hn1]

/-- Witness of C2: the third slot of a ring with two pending requests. -/
theorem C2_Go_appends_at_requestCount_witness :
    (SimulationIface.fresh Nat 2).data.requestCount = 2 ∧
      (((SimulationIface.fresh Nat 2).Go 5000 0 true).data.requests 2).type = RequestType.GO ∧
      (((SimulationIface.fresh Nat 2).Go 5000 0 true).data.requests 2).runTime = 5000 ∧
      ((SimulationIface.fresh Nat 2).Go 5000 0 true).data.requestCount = 2 + 1 :=
  ⟨rfl, C2_Go_appends_at_requestCount (SimulationIface.fresh Nat 2) 2 5000 0 true rfl
    (by decide) (by decide)⟩

/-- C3: on a handle whose go-acknowledge signal has no slot connected other than the one
`currentConnection` refers to (so on a newly constructed handle, and on every handle only `Go`
has connected to), after a non-empty sequence of `Go` calls exactly one subscriber is connected
to the signal, the subscriber of the last call; every earlier one has been disconnected. -/
theorem C3_Go_only_latest_subscriber_connected {σ : Type} (h : SimulationIface σ)
    (calls : List (GoCall σ)) (hne : calls ≠ [])
    (hwf : ∀ p ∈ h.goAckSignal.slots, h.currentConnection.id = some p.1) :
    (h.GoSeq calls).goAckSignal.subscribers = [(calls.getLast hne).subscriber] := by
  obtain ⟨cs, c, rfl⟩ : ∃ cs c, calls = cs ++ [c] :=
    ⟨calls.dropLast, calls.getLast hne, (List.dropLast_append_getLast hne).symm⟩
  have hinv : ∀ (ds : List (GoCall σ)) (g : SimulationIface σ),
      (∀ p ∈ g.goAckSignal.slots, g.currentConnection.id = some p.1) →
      ∀ p ∈ (g.GoSeq ds).goAckSignal.slots, (g.GoSeq ds).currentConnection.id = some p.1 := by
    intro ds
    induction ds with
    | nil => intro g hg; exact hg
    | cons d ds ih =>
      intro g hg
      apply ih
      have := Go_slots g d.us d.subscriber d.lockResult hg
      intro p hp
      rw [this.1] at hp
      rw [this.2]
      simp at hp
      simp [hp]
  rw [GoSeq_append]
  have hstep := Go_slots (h.GoSeq cs) c.us c.subscriber c.lockResult (hinv cs h hwf)
  simp [SimulationIface.GoSeq, Signal.subscribers, hstep.1]

/-- Witness of C3: three `Go` calls on a newly constructed handle leave the third subscriber. -/
theorem C3_Go_only_latest_subscriber_connected_witness :
    ((SimulationIface.fresh Nat 0).GoSeq
      [⟨10, 1, true⟩, ⟨20, 2, true⟩, ⟨30, 3, true⟩]).goAckSignal.subscribers = [3] :=
  C3_Go_only_latest_subscriber_connected (SimulationIface.fresh Nat 0)
    [⟨10, 1, true⟩, ⟨20, 2, true⟩, ⟨30, 3, true⟩] (by simp)
    (by intro p hp; simp [SimulationIface.fresh] at hp)

/-- C4 (as stated, refuted): on a newly constructed handle, when the first block of
`Go(5, 7)` has run, the GO request is visible in the ring (`requestCount = 1`, slot 0 tagged
`GO`, `Unlock` issued, lock not held) and no subscriber is connected to the go-acknowledge
signal; in the effects of the whole call `connect` comes after `Unlock`. -/
theorem C4_request_visible_before_callback_connected :
    ((SimulationIface.fresh Nat 0).GoIssue 5 true).data.requestCount = 1 ∧
      (((SimulationIface.fresh Nat 0).GoIssue 5 true).data.requests 0).type = RequestType.GO ∧
      ((SimulationIface.fresh Nat 0).GoIssue 5 true).base.trace.getLast? = some Event.unlock ∧
      ((SimulationIface.fresh Nat 0).GoIssue 5 true).base.held = false ∧
      ((SimulationIface.fresh Nat 0).GoIssue 5 true).goAckSignal.subscribers = [] ∧
      ((SimulationIface.fresh Nat 0).Go 5 7 true).goAckSignal.subscribers = [7] ∧
      ((SimulationIface.fresh Nat 0).Go 5 7 true).base.trace.indexOf Event.unlock <
        ((SimulationIface.fresh Nat 0).Go 5 7 true).base.trace.indexOf Event.connect := by
  decide

/-- C4 (amended): in `Go` the completion callback is registered after the request is issued.
`Go` is its first block followed by its second; when the first block ends with `Unlock` the
ring already has its final contents while the signal and the connection are still what they
were before the call; the second block issues only `disconnect` (when a connection was live)
and `connect`, after which the caller's subscriber is the last slot of the signal. -/
theorem C4_Go_connects_callback_after_issue {σ : Type} (h : SimulationIface σ) (us : Nat)
    (s : σ) (lockResult : Bool) :
    h.Go us s lockResult = (h.GoIssue us lockResult).GoConnect s ∧
      (h.GoIssue us lockResult).base.trace.getLast? = some Event.unlock ∧
      (h.GoIssue us lockResult).base.held = false ∧
      (h.GoIssue us lockResult).data.requestCount = (h.Go us s lockResult).data.requestCount ∧
      (h.GoIssue us lockResult).data.requests = (h.Go us s lockResult).data.requests ∧
      (h.GoIssue us lockResult).goAckSignal = h.goAckSignal ∧
      (h.GoIssue us lockResult).currentConnection = h.currentConnection ∧
      (h.Go us s lockResult).base.since (h.GoIssue us lockResult).base =
        (if h.currentConnection.connected h.goAckSignal then [Event.disconnect] else []) ++
          [Event.connect] ∧
      (h.Go us s lockResult).goAckSignal.subscribers.getLast? = some s := by
  have hsig := GoIssue_signal h us lockResult
  refine ⟨rfl, ?_, ?_, ?_, ?_, hsig.1, hsig.2, ?_, ?_⟩
  · rw [GoIssue_trace]
    simp
  · simp [SimulationIface.GoIssue, Iface.Unlock]
  · by_cases hc : h.currentConnection.connected h.goAckSignal = true <;>
      simp [SimulationIface.Go, SimulationIface.GoConnect, SimulationIface.GoIssue, hc]
  · by_cases hc : h.currentConnection.connected h.goAckSignal = true <;>
      simp [SimulationIface.Go, SimulationIface.GoConnect, SimulationIface.GoIssue, hc]
  · apply since_append
    have := GoConnect_trace (h.GoIssue us lockResult) s
    rw [hsig.1, hsig.2] at this
    exact this
  · by_cases hc : h.currentConnection.connected h.goAckSignal = true <;>
      simp [SimulationIface.Go, SimulationIface.GoConnect, SimulationIface.GoIssue, hc,
        Signal.connect, Signal.subscribers]

/-- C5 (as stated, refuted): a `Go` call on a newly constructed handle issues `Lock(1)`, the
append, `Unlock` and `connect`, and no `Post` at all. -/
theorem C5_Go_issues_no_post :
    ((SimulationIface.fresh Nat 0).Go 5 7 true).base.trace =
        [Event.lock 1, Event.read Loc.requestCount, Event.write Loc.requestCount,
         Event.write (Loc.requestType 0), Event.write (Loc.requestRunTime 0),
         Event.unlock, Event.connect] ∧
      ((SimulationIface.fresh Nat 0).Go 5 7 true).base.trace.count Event.post = 0 := by
  decide

/-- C5 (amended): every `Go` call performs on the simulation interface, in this order,
`Lock(1)`, the append at `requests[requestCount]` with the increment of `requestCount`, and
`Unlock`; what follows is only the update of the go-acknowledge connection, and the call issues
no `Post`. -/
theorem C5_Go_lock_append_unlock_then_connect {σ : Type} (h : SimulationIface σ) (us : Nat)
    (s : σ) (lockResult : Bool) :
    ∃ tail : List Event,
      (h.Go us s lockResult).base.since h.base =
        [Event.lock 1, Event.read Loc.requestCount, Event.write Loc.requestCount,
         Event.write (Loc.requestType h.data.requestCount),
         Event.write (Loc.requestRunTime h.data.requestCount), Event.unlock] ++ tail ∧
      (∀ e ∈ tail, e = Event.disconnect ∨ e = Event.connect) ∧
      Event.post ∉ (h.Go us s lockResult).base.since h.base := by
  have hsig := GoIssue_signal h us lockResult
  have h1 := GoIssue_trace h us lockResult
  have h2 := GoConnect_trace (h.GoIssue us lockResult) s
  rw [hsig.1, hsig.2, h1, List.append_assoc] at h2
  have h3 := since_append (h.Go us s lockResult).base h.base _ h2
  refine ⟨(if h.currentConnection.connected h.goAckSignal then [Event.disconnect] else []) ++
    [Event.connect], h3, ?_, ?_⟩
  · intro e he
    by_cases hc : h.currentConnection.connected h.goAckSignal = true <;> simp [hc] at he
    · exact he
    · exact Or.inr he
  · rw [h3]
    by_cases hc : h.currentConnection.connected h.goAckSignal = true <;> simp [hc]

/-! ### Helper lemmas on `PutCameraData` -/

theorem byteCount_fits (p : MonoCameraSensor) (hfit : p.byteCount < UINT_MOD) :
    p.imageSize = p.byteCount := by
  unfold MonoCameraSensor.imageSize MonoCameraSensor.byteCount at *
  have h1 : ((p.imageWidth % UINT_MOD) * (p.imageHeight % UINT_MOD) * (p.imageDepth % UINT_MOD))
      % UINT_MOD = (p.imageWidth * p.imageHeight * p.imageDepth) % UINT_MOD :=
    Nat.ModEq.mul (Nat.ModEq.mul (Nat.mod_modEq _ _) (Nat.mod_modEq _ _)) (Nat.mod_modEq _ _)
  rw [h1]
  exact Nat.mod_eq_of_lt hfit

theorem PutCameraData_pass (cap : Nat) (cam : Generic_Camera) (lockResult : Bool)
    (hok : cam.myParent.imageSize ≤ cap) :
    (cam.PutCameraData cap lockResult).cameraIface.base.trace =
        cam.cameraIface.base.trace ++
          (Event.lock 1 :: (refreshEvents ++ copyEvents cam.cameraIface.data.saveFrames ++
            [Event.unlock, Event.post])) ∧
      (cam.PutCameraData cap lockResult).cameraIface.data.image_size = cam.myParent.imageSize ∧
      (cam.PutCameraData cap lockResult).cameraIface.data.image =
        memcpy cam.cameraIface.data.image cam.myParent.imageData cam.myParent.imageSize ∧
      (cam.PutCameraData cap lockResult).aborted = cam.aborted := by
  simp only [MonoCameraSensor.imageSize, Nat.mul_mod_mod] at hok
  simp [Generic_Camera.PutCameraData, CameraIface.store, CameraIface.load, Iface.emit,
    Iface.Lock, Iface.Unlock, Iface.Post, CameraIface.Post, hok, refreshEvents, copyEvents,
    MonoCameraSensor.imageSize]

theorem PutCameraData_fail (cap : Nat) (cam : Generic_Camera) (lockResult : Bool)
    (hbad : cap < cam.myParent.imageSize) :
    (cam.PutCameraData cap lockResult).cameraIface.base.trace =
        cam.cameraIface.base.trace ++ (Event.lock 1 :: (refreshEvents ++ [Event.assertFail])) ∧
      (cam.PutCameraData cap lockResult).cameraIface.data.image_size = cam.myParent.imageSize ∧
      (cam.PutCameraData cap lockResult).cameraIface.data.image = cam.cameraIface.data.image ∧
      (cam.PutCameraData cap lockResult).aborted = true := by
  simp only [MonoCameraSensor.imageSize, Nat.mul_mod_mod] at hbad
  have hnot : ¬ ((cam.myParent.imageWidth % UINT_MOD) * (cam.myParent.imageHeight % UINT_MOD) *
      cam.myParent.imageDepth) % UINT_MOD ≤ cap := by omega
  simp [Generic_Camera.PutCameraData, CameraIface.store, CameraIface.load, Iface.emit,
    Iface.Lock, hnot, refreshEvents, MonoCameraSensor.imageSize]

theorem PutCameraData_events (cap : Nat) (cam : Generic_Camera) (lockPut : Bool) :
    ∃ ev : List Event,
      (cam.PutCameraData cap lockPut).cameraIface.base.trace = cam.cameraIface.base.trace ++ ev ∧
      ∀ e ∈ ev, e.isLock = true → e = Event.lock 1 := by
  by_cases hok : cam.myParent.imageSize ≤ cap
  · refine ⟨_, (PutCameraData_pass cap cam lockPut hok).1, ?_⟩
    intro e he hl
    cases hs : cam.cameraIface.data.saveFrames <;>
      simp [refreshEvents, copyEvents, hs] at he <;>
      rcases he with he | he | he | he | he | he | he | he | he | he | he | he | he | he | he |
        he | he | he | he | he | he | he | he <;> subst he <;> simp_all [Event.isLock]
  · refine ⟨_, (PutCameraData_fail cap cam lockPut (by omega)).1, ?_⟩
    intro e he hl
    simp [refreshEvents] at he
    rcases he with he | he | he | he | he | he | he | he | he | he | he | he | he | he | he |
      he | he <;> subst he <;> simp_all [Event.isLock]

theorem Activate_trace (cam : Generic_Camera) (lockUpd : Bool) :
    (cam.Activate lockUpd).cameraIface.base.trace = cam.cameraIface.base.trace ++
      (Event.lock 1 :: (if lockUpd then
        [Event.read Loc.headOpenCount,
         Event.setActive (decide (cam.cameraIface.data.head.openCount > 0)), Event.unlock]
        else [])) := by
  cases lockUpd <;>
    simp [Generic_Camera.Activate, Iface.Lock, Iface.emit, Iface.Unlock,
      CameraIface.GetOpenCount, CameraIface.load]

theorem UpdateChild_events (cap : Nat) (cam : Generic_Camera) (lockPut lockUpd : Bool) :
    ∃ ev : List Event,
      (cam.UpdateChild cap lockPut lockUpd).cameraIface.base.trace =
        cam.cameraIface.base.trace ++ ev ∧
      ∀ e ∈ ev, e.isLock = true → e = Event.lock 1 := by
  have htail : ∀ s1 : Generic_Camera, ∃ ev : List Event,
      (if s1.aborted then s1 else s1.Activate lockUpd).cameraIface.base.trace =
        s1.cameraIface.base.trace ++ ev ∧
      ∀ e ∈ ev, e.isLock = true → e = Event.lock 1 := by
    intro s1
    by_cases ha : s1.aborted = true
    · exact ⟨[], by simp [ha], by simp⟩
    · refine ⟨_, by simp only [ha]; exact Activate_trace s1 lockUpd, ?_⟩
      intro e he hl
      cases lockUpd <;> simp at he
      · exact he
      · rcases he with he | he | he | he <;> subst he <;> simp_all [Event.isLock]
  unfold Generic_Camera.UpdateChild
  by_cases hact : cam.myParent.active = true
  · obtain ⟨ev1, h1, h1l⟩ := PutCameraData_events cap cam lockPut
    obtain ⟨ev2, h2, h2l⟩ := htail (cam.PutCameraData cap lockPut)
    refine ⟨ev1 ++ ev2, ?_, ?_⟩
    · simp only [hact, if_true]
      rw [← List.append_assoc, ← h1]
      exact h2
    · intro e he hl
      rcases List.mem_append.mp he with he | he
      · exact h1l e he hl
      · exact h2l e he hl
  · obtain ⟨ev2, h2, h2l⟩ := htail cam
    refine ⟨ev2, ?_, h2l⟩
    simp only [hact]
    exact h2

/-! ### The claims on the camera controller -/

/-- C6 (code defect): for a 65537 x 65536 image of depth 1 and a buffer of 100000 bytes,
width*height*depth = 4295032832 exceeds the capacity, yet the `unsigned int` product the code
stores in `image_size` wraps to 65536, the assertion "make sure there is room to store the
image" passes, the run reaches the pixel copy with `image_size = 65536`, which is not
width*height*depth, and pixel bytes are written. -/
theorem C6_wrapped_product_passes_assertion :
    (Generic_Camera.sample true 65537 65536 1).myParent.byteCount = 4295032832 ∧
      100000 < (Generic_Camera.sample true 65537 65536 1).myParent.byteCount ∧
      ((Generic_Camera.sample true 65537 65536 1).PutCameraData 100000 true).aborted = false ∧
      Event.write Loc.camImage ∈
        ((Generic_Camera.sample true 65537 65536 1).PutCameraData 100000
          true).cameraIface.base.trace ∧
      ((Generic_Camera.sample true 65537 65536 1).PutCameraData 100000
        true).cameraIface.data.image_size = 65536 ∧
      (Generic_Camera.sample true 65537 65536 1).cameraIface.data.image 0 = 0 ∧
      ((Generic_Camera.sample true 65537 65536 1).PutCameraData 100000
        true).cameraIface.data.image 0 = 7 := by
  decide

/-- Where the assertion does its work: for every image width, height and depth whose product
fits an `unsigned int` (is below 2^32), every run of `PutCameraData` that reaches the pixel
copy has `image_size = width*height*depth`, `image_size` is at most the capacity of the image
buffer, and exactly `image_size` bytes are copied into it (the bytes below that offset are the
sensor's, the others are untouched); when width*height*depth exceeds the capacity no pixel
byte is written. -/
theorem PutCameraData_copy_when_product_fits (cap : Nat) (cam : Generic_Camera)
    (lockResult : Bool) (hfit : cam.myParent.byteCount < UINT_MOD) :
    (Event.write Loc.camImage ∈
        (cam.PutCameraData cap lockResult).cameraIface.base.since cam.cameraIface.base →
      (cam.PutCameraData cap lockResult).cameraIface.data.image_size = cam.myParent.byteCount ∧
      (cam.PutCameraData cap lockResult).cameraIface.data.image_size ≤ cap ∧
      (∀ j, j < cam.myParent.byteCount →
        (cam.PutCameraData cap lockResult).cameraIface.data.image j = cam.myParent.imageData j) ∧
      (∀ j, cam.myParent.byteCount ≤ j →
        (cam.PutCameraData cap lockResult).cameraIface.data.image j =
          cam.cameraIface.data.image j)) ∧
    (cap < cam.myParent.byteCount →
      Event.write Loc.camImage ∉
        (cam.PutCameraData cap lockResult).cameraIface.base.since cam.cameraIface.base ∧
      (cam.PutCameraData cap lockResult).cameraIface.data.image = cam.cameraIface.data.image) := by
  have hsz := byteCount_fits cam.myParent hfit
  by_cases hok : cam.myParent.imageSize ≤ cap
  · obtain ⟨_, h2, h3, _⟩ := PutCameraData_pass cap cam lockResult hok
    refine ⟨fun _ => ⟨by rw [h2, hsz], by rw [h2]; exact hok, ?_, ?_⟩, ?_⟩
    · intro j hj
      rw [h3, hsz]
      simp [memcpy, hj]
    · intro j hj
      rw [h3, hsz]
      have : ¬ j < cam.myParent.byteCount := by omega
      simp [memcpy, this]
    · intro hbad
      omega
  · obtain ⟨h1, _, h3, _⟩ := PutCameraData_fail cap cam lockResult (by omega)
    have hs := since_append _ _ _ h1
    refine ⟨?_, fun _ => ⟨?_, h3⟩⟩
    · intro hmem
      rw [hs] at hmem
      simp [refreshEvents] at hmem
    · rw [hs]
      simp [refreshEvents]

/-- C8 (code defect): when `Lock(1)` returns false, `Go` still increments `requestCount`,
writes the tag and the run time of slot 0 and calls `Unlock`; `PutCameraData` still writes the
fields of the camera segment (width 4, height 3, image_size 24, the image bytes) and calls
`Unlock` and `Post`.  Neither looks at the value `Lock` returned. -/
theorem C8_failed_lock_is_ignored :
    ((SimulationIface.fresh Nat 0).Go 5 7 false).base.trace =
        [Event.lock 1, Event.read Loc.requestCount, Event.write Loc.requestCount,
         Event.write (Loc.requestType 0), Event.write (Loc.requestRunTime 0),
         Event.unlock, Event.connect] ∧
      ((SimulationIface.fresh Nat 0).Go 5 7 false).data.requestCount = 1 ∧
      (((SimulationIface.fresh Nat 0).Go 5 7 false).data.requests 0).runTime = 5 ∧
      ((Generic_Camera.sample true 4 3 2).PutCameraData 100 false).cameraIface.base.trace =
        Event.lock 1 :: (refreshEvents ++ copyEvents false ++ [Event.unlock, Event.post]) ∧
      ((Generic_Camera.sample true 4 3 2).PutCameraData 100 false).cameraIface.data.width = 4 ∧
      ((Generic_Camera.sample true 4 3 2).PutCameraData 100 false).cameraIface.data.image_size
        = 24 ∧
      ((Generic_Camera.sample true 4 3 2).PutCameraData 100 false).cameraIface.data.image 0
        = 7 := by
  decide

/-- C9 (as stated, refuted): in a tick of an active camera the two `Lock` calls are both
`Lock(1)`, none is `Lock(0)`; and when both return false the tick still writes the camera
segment and issues `Post`. -/
theorem C9_tick_locks_are_blocking :
    ((Generic_Camera.sample true 4 3 2).UpdateChild 100 true true).cameraIface.base.trace.filter
        Event.isLock = [Event.lock 1, Event.lock 1] ∧
      Event.lock 0 ∉
        ((Generic_Camera.sample true 4 3 2).UpdateChild 100 true true).cameraIface.base.trace ∧
      Event.write Loc.camImage ∈
        ((Generic_Camera.sample true 4 3 2).UpdateChild 100 false false).cameraIface.base.trace ∧
      Event.post ∈
        ((Generic_Camera.sample true 4 3 2).UpdateChild 100 false
          false).cameraIface.base.trace := by
  decide

/-- C9 (amended): the camera's per-tick publish path issues only blocking lock requests: every
`Lock` call of `UpdateChild` and of the `PutCameraData` it calls is `Lock(1)`.  In a tick in
which the sensor is inactive and the `Lock(1)` of `UpdateChild` returns false, the only effect
is that `Lock(1)` call: no field is read or written, no `Unlock` and no `Post` is issued, and
the segment and the sensor (its active flag included) are unchanged. -/
theorem C9_UpdateChild_locks_with_blocking_requests (cap : Nat) (cam : Generic_Camera)
    (lockPut lockUpd : Bool) :
    (∀ e ∈ (cam.UpdateChild cap lockPut lockUpd).cameraIface.base.since cam.cameraIface.base,
      e.isLock = true → e = Event.lock 1) ∧
    (cam.myParent.active = false → cam.aborted = false → lockUpd = false →
      (cam.UpdateChild cap lockPut lockUpd).cameraIface.base.since cam.cameraIface.base =
        [Event.lock 1] ∧
      (cam.UpdateChild cap lockPut lockUpd).cameraIface.data = cam.cameraIface.data ∧
      (cam.UpdateChild cap lockPut lockUpd).myParent = cam.myParent) := by
  constructor
  · obtain ⟨ev, h1, h2⟩ := UpdateChild_events cap cam lockPut lockUpd
    rw [since_append _ _ _ h1]
    exact h2
  · intro hact hab hl
    subst hl
    have hu : cam.UpdateChild cap lockPut false = cam.Activate false := by
      simp [Generic_Camera.UpdateChild, hact, hab]
    rw [hu]
    refine ⟨?_, ?_, ?_⟩
    · apply since_append
      simpa using Activate_trace cam false
    · simp [Generic_Camera.Activate, Iface.Lock]
    · simp [Generic_Camera.Activate, Iface.Lock]

/-- Witness of C9: a tick of an inactive camera whose `Lock(1)` returns false. -/
theorem C9_UpdateChild_locks_with_blocking_requests_witness :
    (Generic_Camera.sample false 4 3 2).myParent.active = false ∧
      ((Generic_Camera.sample false 4 3 2).UpdateChild 100 true false).cameraIface.base.since
        (Generic_Camera.sample false 4 3 2).cameraIface.base = [Event.lock 1] :=
  ⟨rfl, ((C9_UpdateChild_locks_with_blocking_requests 100 (Generic_Camera.sample false 4 3 2)
    true false).2 rfl rfl rfl).1⟩

/-! ### The claims on the device variants -/

/-- C10 (as stated, refuted): with a header of 72 bytes, a payload of 80 bytes and an interface
class of 160 bytes, the position variant declares a segment of 312 bytes while its data struct,
header plus payload, has 152 bytes. -/
theorem C10_declared_size_is_not_data_struct_size :
    (Variant.ctor Sizeof.sample Variant.PositionIface).size = 312 ∧
      Sizeof.sample.dataStruct Variant.PositionIface = 152 ∧
      (Variant.ctor Sizeof.sample Variant.PositionIface).size ≠
        Sizeof.sample.head + Sizeof.sample.payload Variant.PositionIface := by
  decide

/-- C10 (amended): for every device variant defined in `gazebo.h`, the declared segment size the
variant passes to the base `Iface` constructor equals `sizeof` of the variant's interface class
plus the size of that kind's data struct (header size + payload size): the bytes beyond the
data struct are exactly `sizeof` of the interface class. -/
theorem C10_declared_size_adds_interface_class (sz : Sizeof) (v : Variant) :
    (Variant.ctor sz v).size = sz.ifaceClass v + (sz.head + sz.payload v) ∧
      (Variant.ctor sz v).size - sz.dataStruct v = sz.ifaceClass v := by
  cases v <;> simp [Variant.ctor, Sizeof.dataStruct]

/-- C11: the kind tags the eleven device variants pass to the base constructor are pairwise
distinct: the map from variant to kind tag is injective, so a tag identifies one variant and
its payload schema; the tag of the laser variant is "laser" and the tag of the position
variant is "position". -/
theorem C11_kind_tags_pairwise_distinct (sz : Sizeof) :
    Function.Injective (fun v : Variant => (Variant.ctor sz v).type) ∧
      (Variant.all.map (fun v => (Variant.ctor sz v).type)) =
        ["position", "imu", "laser", "fiducial", "factory", "gripper", "actarray", "ptz",
         "bumper", "opaque", "irarray"] ∧
      (Variant.all.map (fun v => (Variant.ctor sz v).type)).Nodup ∧
      (∀ v : Variant, v ∈ Variant.all) ∧
      (Variant.ctor sz Variant.LaserIface).type = "laser" ∧
      (Variant.ctor sz Variant.PositionIface).type = "position" := by
  have htags : (Variant.all.map (fun v => (Variant.ctor sz v).type)) =
      ["position", "imu", "laser", "fiducial", "factory", "gripper", "actarray", "ptz",
       "bumper", "opaque", "irarray"] := rfl
  refine ⟨?_, htags, by rw [htags]; decide, ?_, rfl, rfl⟩
  · intro v w h
    cases v <;> cases w <;> first | rfl | (exfalso; revert h; simp only [Variant.ctor]; decide)
  · intro v
    cases v <;> decide

/-- C12: `SimulationRequestData::Type` has exactly the 21 tags the specification lists, in the
specification's order; their numeric values are the consecutive integers 0 to 20, the map from
tag to integer is injective, and `GO` has value 11. -/
theorem C12_request_tags_consecutive :
    RequestType.specOrder = RequestType.declared ∧
      RequestType.specOrder.length = 21 ∧
      RequestType.specOrder.Nodup ∧
      (∀ t : RequestType, t ∈ RequestType.specOrder) ∧
      RequestType.specOrder.map RequestType.value = List.range 21 ∧
      Function.Injective RequestType.value ∧
      RequestType.value RequestType.GO = 11 := by
  refine ⟨rfl, rfl, by decide, ?_, by decide, ?_, by decide⟩
  · intro t
    cases t <;> decide
  · intro a b h
    cases a <;> cases b <;> first | rfl | (exfalso; revert h; decide)

/-- C13: the compile-time capacities are those the specification gives: laser ranges and
intensities hold 1024 samples, fiducial observations 401, the actuator array 16 actuators, the
opaque payload 1024*1024*8 = 8388608 bytes (8 MiB), the factory new-model buffer 409600 bytes
(400 KiB), and the request ring and the response ring 128 records each. -/
theorem C13_capacities :
    LaserData.rangesExtent = 1024 ∧ LaserData.intensityExtent = 1024 ∧
      FiducialData.fidsExtent = 401 ∧
      ActarrayData.actuatorsExtent = 16 ∧
      OpaqueData.dataExtent = 8388608 ∧ OpaqueData.dataExtent = 8 * 2 ^ 20 ∧
      FactoryData.newModelExtent = 409600 ∧ FactoryData.newModelExtent = 400 * 2 ^ 10 ∧
      SimulationData.requestsExtent = 128 ∧ SimulationData.responsesExtent = 128 ∧
      SimulationData.requestsExtent = SimulationData.responsesExtent := by
  decide

/-- C14: the user range `GZ_CLIENT_ID_USER_FIRST..GZ_CLIENT_ID_USER_LAST` (inclusive) contains
exactly 8 ids, the ids reserved for the roles `WXGAZEBO` and `PLAYER` are distinct from each
other, and no reserved id lies in the user range. -/
theorem C14_client_ids_do_not_collide :
    userClientIds = [0, 1, 2, 3, 4, 5, 6, 7] ∧
      userClientIds.length = 8 ∧
      (∀ i : Nat, i ∈ userClientIds ↔ GZ_CLIENT_ID_USER_FIRST ≤ i ∧ i ≤ GZ_CLIENT_ID_USER_LAST) ∧
      GZ_CLIENT_ID_WXGAZEBO ≠ GZ_CLIENT_ID_PLAYER ∧
      reservedClientIds.Nodup ∧
      (∀ r ∈ reservedClientIds, r ∉ userClientIds) := by
  refine ⟨by decide, by decide, ?_, by decide, by decide, by decide⟩
  intro i
  simp only [userClientIds, List.mem_filter, List.mem_range, decide_eq_true_eq,
    GZ_CLIENT_ID_USER_FIRST, GZ_CLIENT_ID_USER_LAST]
  omega

/-! ### The open count -/

/-- C17: for each of the eleven device variants, `Create(server, id)` is the base
`Iface::Create(server, id)` followed by `data := mMap`, and `Open(client, id)` is the base
`Iface::Open(client, id)` followed by `data := mMap`; after a successful `Create` or `Open`,
`data` and `mMap` are the same address and the inherited members are exactly what the base
operation produced. -/
theorem C17_variant_Create_Open_wire_data (ops : IfaceOps) (self : DeviceIface) (n : Nat)
    (id : String) :
    self.Create ops n id = self.specCreate ops n id ∧
      self.Open ops n id = self.specOpen ops n id ∧
      ((ops.Create self.members n id).ok = true →
        (self.Create ops n id).2 = true ∧
        (self.Create ops n id).1.data = (self.Create ops n id).1.members.mMap ∧
        (self.Create ops n id).1.members = (ops.Create self.members n id).members ∧
        (self.Create ops n id).1.kind = self.kind) ∧
      ((ops.Open self.members n id).ok = true →
        (self.Open ops n id).2 = true ∧
        (self.Open ops n id).1.data = (self.Open ops n id).1.members.mMap ∧
        (self.Open ops n id).1.members = (ops.Open self.members n id).members ∧
        (self.Open ops n id).1.kind = self.kind) := by
  obtain ⟨k, m, d⟩ := self
  refine ⟨?_, ?_, ?_, ?_⟩
  · cases k <;> by_cases hok : (ops.Create m n id).ok = true <;>
      simp [DeviceIface.Create, DeviceIface.specCreate, hok]
  · cases k <;> by_cases hok : (ops.Open m n id).ok = true <;>
      simp [DeviceIface.Open, DeviceIface.specOpen, hok]
  · intro hok
    simp only at hok
    cases k <;> simp [DeviceIface.Create, hok]
  · intro hok
    simp only at hok
    cases k <;> simp [DeviceIface.Open, hok]

/-- Witness of C17: `Create` and `Open` of the laser variant over the sample base methods. -/
theorem C17_variant_Create_Open_wire_data_witness :
    ((DeviceIface.sample Variant.LaserIface).Create IfaceOps.sample 1 "laser_iface_0").1.data
        = some 4096 ∧
      ((DeviceIface.sample Variant.LaserIface).Open IfaceOps.sample 2 "laser_iface_0").1.data
        = ((DeviceIface.sample Variant.LaserIface).Open IfaceOps.sample 2
            "laser_iface_0").1.members.mMap :=
  ⟨((C17_variant_Create_Open_wire_data IfaceOps.sample (DeviceIface.sample Variant.LaserIface)
      1 "laser_iface_0").2.2.1 (by decide)).2.1.trans (by decide),
    ((C17_variant_Create_Open_wire_data IfaceOps.sample (DeviceIface.sample Variant.LaserIface)
      2 "laser_iface_0").2.2.2 (by decide)).2.1⟩

/-! ### Activation and publication in `UpdateChild` -/

theorem PutCameraData_keeps (cap : Nat) (cam : Generic_Camera) (lockResult : Bool) :
    (cam.PutCameraData cap lockResult).myParent.active = cam.myParent.active ∧
      (cam.PutCameraData cap lockResult).cameraIface.data.head.openCount =
        cam.cameraIface.data.head.openCount ∧
      (cam.PutCameraData cap lockResult).myParent.imageSize = cam.myParent.imageSize := by
  by_cases hok : ((cam.myParent.imageWidth % UINT_MOD) * (cam.myParent.imageHeight % UINT_MOD) *
      cam.myParent.imageDepth) % UINT_MOD ≤ cap <;>
    simp [Generic_Camera.PutCameraData, CameraIface.store, CameraIface.load, CameraIface.Post,
      hok, MonoCameraSensor.imageSize]

theorem Activate_state (cam : Generic_Camera) (lockUpd : Bool) :
    (cam.Activate lockUpd).aborted = cam.aborted ∧
      (cam.Activate lockUpd).myParent.imageSize = cam.myParent.imageSize ∧
      (cam.Activate lockUpd).myParent.active =
        (if lockUpd then decide (cam.cameraIface.data.head.openCount > 0)
          else cam.myParent.active) := by
  cases lockUpd <;>
    simp [Generic_Camera.Activate, Iface.Lock, CameraIface.GetOpenCount, CameraIface.load,
      MonoCameraSensor.imageSize]

theorem UpdateChild_completed (cap : Nat) (cam : Generic_Camera) (lockPut lockUpd : Bool)
    (hdone : (cam.UpdateChild cap lockPut lockUpd).aborted = false) :
    (cam.UpdateChild cap lockPut lockUpd).myParent.active =
      (if lockUpd then decide (cam.cameraIface.data.head.openCount > 0)
        else cam.myParent.active) := by
  have hk := PutCameraData_keeps cap cam lockPut
  unfold Generic_Camera.UpdateChild at hdone ⊢
  by_cases hact : cam.myParent.active = true
  · simp only [hact, if_true] at hdone ⊢
    by_cases hab : (cam.PutCameraData cap lockPut).aborted = true
    · simp [hab] at hdone
    · rw [if_neg hab, (Activate_state _ lockUpd).2.2, hk.2.1, hk.1, hact]
  · simp only [hact] at hdone ⊢
    by_cases hab : cam.aborted = true
    · simp [hab] at hdone
    · simp only [Bool.false_eq_true, if_false] at hdone ⊢
      rw [if_neg hab]
      have hf : cam.myParent.active = false := by simpa using hact
      rw [(Activate_state cam lockUpd).2.2, hf]

/-- C18: in the activation statement of `UpdateChild`, when `Lock(1)` returns true the effects
are `Lock(1)`, the read of the open count (made while the lock is held), `SetActive`, and
`Unlock`, exactly once, and the active flag afterwards is true iff the open count is above 0;
when `Lock(1)` returns false the only effect is the `Lock(1)` call: the active flag is left
unchanged, the open count is not read and `Unlock` is not called.  The active flag a completed
`UpdateChild` leaves is the one its activation statement sets. -/
theorem C18_UpdateChild_activates_iff_open (cap : Nat) (cam : Generic_Camera)
    (lockPut lockUpd : Bool) :
    (lockUpd = true →
      ((cam.Activate lockUpd).myParent.active = true ↔
        cam.cameraIface.data.head.openCount > 0) ∧
      (cam.Activate lockUpd).cameraIface.base.since cam.cameraIface.base =
        [Event.lock 1, Event.read Loc.headOpenCount,
         Event.setActive (decide (cam.cameraIface.data.head.openCount > 0)), Event.unlock] ∧
      ((cam.Activate lockUpd).cameraIface.base.since cam.cameraIface.base).count Event.unlock
        = 1 ∧
      (cam.cameraIface.base.Lock 1 lockUpd).1.held = true ∧
      (cam.Activate lockUpd).cameraIface.base.held = false) ∧
    (lockUpd = false →
      (cam.Activate lockUpd).myParent.active = cam.myParent.active ∧
      (cam.Activate lockUpd).cameraIface.base.since cam.cameraIface.base = [Event.lock 1] ∧
      Event.unlock ∉ (cam.Activate lockUpd).cameraIface.base.since cam.cameraIface.base ∧
      Event.read Loc.headOpenCount ∉
        (cam.Activate lockUpd).cameraIface.base.since cam.cameraIface.base) ∧
    ((cam.UpdateChild cap lockPut lockUpd).aborted = false →
      (lockUpd = true →
        ((cam.UpdateChild cap lockPut lockUpd).myParent.active = true ↔
          cam.cameraIface.data.head.openCount > 0)) ∧
      (lockUpd = false →
        (cam.UpdateChild cap lockPut lockUpd).myParent.active = cam.myParent.active)) := by
  refine ⟨?_, ?_, ?_⟩
  · intro hl
    subst hl
    have hs := since_append _ _ _ (Activate_trace cam true)
    simp only [if_true] at hs
    refine ⟨?_, hs, ?_, ?_, ?_⟩
    · rw [(Activate_state cam true).2.2]
      simp
    · rw [hs]
      simp
    · simp [Iface.Lock]
    · simp [Generic_Camera.Activate, Iface.Lock, Iface.Unlock, CameraIface.GetOpenCount,
        CameraIface.load, Iface.emit]
  · intro hl
    subst hl
    have hs := since_append _ _ _ (Activate_trace cam false)
    simp only [Bool.false_eq_true, if_false] at hs
    refine ⟨?_, hs, ?_, ?_⟩
    · rw [(Activate_state cam false).2.2]
      simp
    · rw [hs]
      simp
    · rw [hs]
      simp
  · intro hdone
    have h := UpdateChild_completed cap cam lockPut lockUpd hdone
    constructor
    · intro hl
      subst hl
      rw [h]
      simp
    · intro hl
      subst hl
      rw [h]
      simp

/-- Witness of C18: a tick of an inactive camera with one client attached, lock acquired. -/
theorem C18_UpdateChild_activates_iff_open_witness :
    (((Generic_Camera.sample false 4 3 2).setOpenCount 1).UpdateChild 100 true
        true).myParent.active = true ↔
      ((Generic_Camera.sample false 4 3 2).setOpenCount 1).cameraIface.data.head.openCount
        > 0 :=
  ((C18_UpdateChild_activates_iff_open 100 ((Generic_Camera.sample false 4 3 2).setOpenCount 1)
    true true).2.2 (by decide)).1 rfl

theorem UpdateChild_publishes (cap : Nat) (cam : Generic_Camera) (lockPut lockUpd : Bool) :
    publishes ((cam.UpdateChild cap lockPut lockUpd).cameraIface.base.since
      cam.cameraIface.base) = cam.myParent.active := by
  have htail : ∀ s1 : Generic_Camera, ∃ ev : List Event,
      (if s1.aborted then s1 else s1.Activate lockUpd).cameraIface.base.trace =
        s1.cameraIface.base.trace ++ ev ∧ Event.write Loc.headTime ∉ ev := by
    intro s1
    by_cases ha : s1.aborted = true
    · exact ⟨[], by simp [ha], by simp⟩
    · refine ⟨_, by rw [if_neg ha]; exact Activate_trace s1 lockUpd, ?_⟩
      cases lockUpd <;> simp
  unfold Generic_Camera.UpdateChild
  by_cases hact : cam.myParent.active = true
  · simp only [hact, if_true]
    obtain ⟨ev2, h2, _⟩ := htail (cam.PutCameraData cap lockPut)
    have h1 : ∃ ev1 : List Event, (cam.PutCameraData cap lockPut).cameraIface.base.trace =
        cam.cameraIface.base.trace ++ (Event.lock 1 :: Event.write Loc.headTime :: ev1) := by
      by_cases hok : cam.myParent.imageSize ≤ cap
      · exact ⟨_, (PutCameraData_pass cap cam lockPut hok).1⟩
      · exact ⟨_, (PutCameraData_fail cap cam lockPut (by omega)).1⟩
    obtain ⟨ev1, h1⟩ := h1
    rw [h1, List.append_assoc] at h2
    rw [since_append _ _ _ h2]
    simp [publishes]
  · have hf : cam.myParent.active = false := by simpa using hact
    simp only [hf, Bool.false_eq_true, if_false]
    obtain ⟨ev2, h2, hno⟩ := htail cam
    rw [since_append _ _ _ h2]
    simpa [publishes] using hno

theorem UpdateChild_tick (cap : Nat) (cam : Generic_Camera) (lockPut : Bool)
    (hab : cam.aborted = false) (hok : cam.myParent.imageSize ≤ cap) :
    (cam.UpdateChild cap lockPut true).aborted = false ∧
      (cam.UpdateChild cap lockPut true).myParent.imageSize = cam.myParent.imageSize ∧
      (cam.UpdateChild cap lockPut true).myParent.active =
        decide (cam.cameraIface.data.head.openCount > 0) := by
  have hk := PutCameraData_keeps cap cam lockPut
  have hp := (PutCameraData_pass cap cam lockPut hok).2.2.2
  have hdone : (cam.UpdateChild cap lockPut true).aborted = false ∧
      (cam.UpdateChild cap lockPut true).myParent.imageSize = cam.myParent.imageSize := by
    unfold Generic_Camera.UpdateChild
    by_cases hact : cam.myParent.active = true
    · simp only [hact, if_true]
      have hna : ¬ (cam.PutCameraData cap lockPut).aborted = true := by rw [hp, hab]; simp
      rw [if_neg hna]
      refine ⟨?_, ?_⟩
      · rw [(Activate_state _ true).1, hp, hab]
      · rw [(Activate_state _ true).2.1, hk.2.2]
    · have hf : cam.myParent.active = false := by simpa using hact
      simp only [hf, Bool.false_eq_true, if_false]
      have hna : ¬ cam.aborted = true := by rw [hab]; simp
      rw [if_neg hna]
      exact ⟨by rw [(Activate_state _ true).1, hab], (Activate_state _ true).2.1⟩
  refine ⟨hdone.1, hdone.2, ?_⟩
  have := UpdateChild_completed cap cam lockPut true hdone.1
  simpa using this

/-- C19: `UpdateChild` calls `PutCameraData` in a tick iff the sensor was active when the tick
began.  Hence over a sequence of ticks in which the lock is always acquired (and no assertion
aborts the process), the first tick publishes iff the sensor was active initially and tick
`t+1` publishes iff the open count observed at tick `t` was above 0: the list of publication
flags is the initial flag followed by the observations, without the last one. -/
theorem C19_publish_follows_previous_observation (cap : Nat) (cam : Generic_Camera)
    (counts : List Int) (hab : cam.aborted = false) (hok : cam.myParent.imageSize ≤ cap) :
    (∀ lockPut lockUpd : Bool,
      publishes ((cam.UpdateChild cap lockPut lockUpd).cameraIface.base.since
        cam.cameraIface.base) = cam.myParent.active) ∧
      cam.runTicks cap counts =
        (cam.myParent.active :: counts.map (fun n => decide (n > 0))).dropLast := by
  refine ⟨fun lp lu => UpdateChild_publishes cap cam lp lu, ?_⟩
  induction counts generalizing cam with
  | nil => simp [Generic_Camera.runTicks]
  | cons n ns ih =>
    have hab0 : (cam.setOpenCount n).aborted = false := hab
    have hok0 : (cam.setOpenCount n).myParent.imageSize ≤ cap := hok
    have ht := UpdateChild_tick cap (cam.setOpenCount n) true hab0 hok0
    have hih := ih ((cam.setOpenCount n).UpdateChild cap true true) ht.1
      (by rw [ht.2.1]; exact hok0)
    have hpub := UpdateChild_publishes cap (cam.setOpenCount n) true true
    have hact0 : (cam.setOpenCount n).myParent.active = cam.myParent.active := rfl
    have hcnt : (cam.setOpenCount n).cameraIface.data.head.openCount = n := rfl
    rw [Generic_Camera.runTicks, hpub, hih, ht.2.2, hact0, hcnt]
    simp

/-- Witness of C19: an inactive camera; a client attaches before the second tick and detaches
before the fourth.  The tick that first observes the client publishes nothing, the tick that
observes it gone still publishes one frame. -/
theorem C19_publish_follows_previous_observation_witness :
    (Generic_Camera.sample false 4 3 2).runTicks 100 [0, 1, 1, 0, 0] =
      [false, false, true, true, false] :=
  (C19_publish_follows_previous_observation 100 (Generic_Camera.sample false 4 3 2)
    [0, 1, 1, 0, 0] rfl (by decide)).2.trans (by decide)

/-! ### Sequences of `Go` calls -/

/-- C20: on a segment with `requestCount = n`, for every list of `unsigned int` run times
`u1..uk` with `n + k <= 128`, after `Go(u1, ..)`, ..., `Go(uk, ..)` in that order
`requestCount = n + k`, for every `i` below `k` the slot `requests[n+i]` has type `GO` and the
run time of call `i`, and the slots below `n` are as before: the requests sit in the ring in
call order. -/
theorem C20_Go_sequence_in_call_order {σ : Type} (h : SimulationIface σ) (n : Nat)
    (calls : List (GoCall σ)) (hn : h.data.requestCount = n)
    (hcap : n + calls.length ≤ GAZEBO_SIMULATION_MAX_REQUESTS)
    (hus : ∀ c ∈ calls, c.us < UINT_MOD) :
    (h.GoSeq calls).data.requestCount = n + calls.length ∧
      (∀ (i : Nat) (hi : i < calls.length),
        ((h.GoSeq calls).data.requests (n + i)).type = RequestType.GO ∧
        ((h.GoSeq calls).data.requests (n + i)).runTime = calls[i].us) ∧
      (∀ j : Nat, j < n → (h.GoSeq calls).data.requests j = h.data.requests j) := by
  induction calls generalizing h n with
  | nil =>
    refine ⟨by simpa [SimulationIface.GoSeq] using hn, ?_, ?_⟩
    · intro i hi
      simp at hi
    · intro j _
      rfl
  | cons c cs ih =>
    have hd := Go_data h c.us c.subscriber c.lockResult
      (by rw [hn]; simp only [List.length_cons] at hcap; omega)
    rw [hn] at hd
    simp only [List.length_cons, GAZEBO_SIMULATION_MAX_REQUESTS] at hcap
    have hn1 : (n + 1) % UINT_MOD = n + 1 := by
      apply Nat.mod_eq_of_lt
      simp only [UINT_MOD]
      omega
    have hc : c.us % UINT_MOD = c.us := Nat.mod_eq_of_lt (hus c (by simp))
    rw [hn1] at hd
    obtain ⟨ih1, ih2, ih3⟩ := ih (h.Go c.us c.subscriber c.lockResult) (n + 1) hd.1
      (by simp only [GAZEBO_SIMULATION_MAX_REQUESTS]; omega)
      (fun d hdm => hus d (by simp [hdm]))
    refine ⟨?_, ?_, ?_⟩
    · simp only [SimulationIface.GoSeq, List.length_cons]
      rw [ih1]
      omega
    · intro i hi
      simp only [SimulationIface.GoSeq]
      cases i with
      | zero =>
        rw [Nat.add_zero, ih3 n (by omega), hd.2]
        simp [setAt, hc]
      | succ k =>
        have hk : k < cs.length := by simpa using hi
        have := ih2 k hk
        rw [show n + 1 + k = n + (k + 1) by omega] at this
        simpa using this
    · intro j hj
      simp only [SimulationIface.GoSeq]
      rw [ih3 j (by omega), hd.2]
      have hne : j ≠ n := by omega
      simp [setAt, hne]

/-- Witness of C20: three `Go` calls on a ring with two pending requests. -/
theorem C20_Go_sequence_in_call_order_witness :
    ((SimulationIface.fresh Nat 2).GoSeq
        [⟨10, 1, true⟩, ⟨20, 2, true⟩, ⟨30, 3, true⟩]).data.requestCount = 2 + 3 ∧
      (((SimulationIface.fresh Nat 2).GoSeq
        [⟨10, 1, true⟩, ⟨20, 2, true⟩, ⟨30, 3, true⟩]).data.requests (2 + 1)).runTime = 20 :=
  ⟨(C20_Go_sequence_in_call_order (SimulationIface.fresh Nat 2) 2
      [⟨10, 1, true⟩, ⟨20, 2, true⟩, ⟨30, 3, true⟩] rfl (by decide) (by decide)).1,
    ((C20_Go_sequence_in_call_order (SimulationIface.fresh Nat 2) 2
      [⟨10, 1, true⟩, ⟨20, 2, true⟩, ⟨30, 3, true⟩] rfl (by decide) (by decide)).2.1 1
        (by decide)).2⟩

/-! ### The frame of `Go` -/

/-- C21: on a segment with `requestCount = n < 128`, `Go` changes only `requests[n].type`,
`requests[n].runTime` and `requestCount`: every other slot of `requests`, the `responses`
array, `responseCount`, `simTime`, `pauseTime`, `realTime`, `state`, the header and the
semaphore fields are unchanged, and the remaining fields of `requests[n]` keep the values the
slot held before. -/
theorem C21_Go_changes_only_tag_runTime_count {σ : Type} (h : SimulationIface σ) (n us : Nat)
    (s : σ) (lockResult : Bool) (hn : h.data.requestCount = n)
    (hlt : n < GAZEBO_SIMULATION_MAX_REQUESTS) :
    (h.Go us s lockResult).data.requestCount = n + 1 ∧
      (h.Go us s lockResult).data.requests n =
        { h.data.requests n with type := RequestType.GO, runTime := us % UINT_MOD } ∧
      (∀ j : Nat, j ≠ n → (h.Go us s lockResult).data.requests j = h.data.requests j) ∧
      (h.Go us s lockResult).data.responses = h.data.responses ∧
      (h.Go us s lockResult).data.responseCount = h.data.responseCount ∧
      (h.Go us s lockResult).data.simTime = h.data.simTime ∧
      (h.Go us s lockResult).data.pauseTime = h.data.pauseTime ∧
      (h.Go us s lockResult).data.realTime = h.data.realTime ∧
      (h.Go us s lockResult).data.state = h.data.state ∧
      (h.Go us s lockResult).data.head = h.data.head ∧
      (h.Go us s lockResult).data.semId = h.data.semId ∧
      (h.Go us s lockResult).data.semKey = h.data.semKey ∧
      ((h.Go us s lockResult).data.requests n).modelName = (h.data.requests n).modelName ∧
      ((h.Go us s lockResult).data.requests n).bodyName = (h.data.requests n).bodyName ∧
      ((h.Go us s lockResult).data.requests n).strValue = (h.data.requests n).strValue ∧
      ((h.Go us s lockResult).data.requests n).vec3Value = (h.data.requests n).vec3Value ∧
      ((h.Go us s lockResult).data.requests n).uintValue = (h.data.requests n).uintValue ∧
      ((h.Go us s lockResult).data.requests n).modelPose = (h.data.requests n).modelPose ∧
      ((h.Go us s lockResult).data.requests n).modelLinearVel =
        (h.data.requests n).modelLinearVel ∧
      ((h.Go us s lockResult).data.requests n).modelAngularVel =
        (h.data.requests n).modelAngularVel ∧
      ((h.Go us s lockResult).data.requests n).modelLinearAccel =
        (h.data.requests n).modelLinearAccel ∧
      ((h.Go us s lockResult).data.requests n).modelAngularAccel =
        (h.data.requests n).modelAngularAccel ∧
      ((h.Go us s lockResult).data.requests n).childInterfaces =
        (h.data.requests n).childInterfaces ∧
      ((h.Go us s lockResult).data.requests n).nChildInterfaces =
        (h.data.requests n).nChildInterfaces := by
  have hd := Go_data h us s lockResult (by rw [hn]; exact hlt)
  have hin := GoIssue_in_range h us lockResult (by rw [hn]; exact hlt)
  rw [hn] at hd
  have hn1 : (n + 1) % UINT_MOD = n + 1 := by
    apply Nat.mod_eq_of_lt
    simp only [GAZEBO_SIMULATION_MAX_REQUESTS, UINT_MOD] at *
    omega
  have hslot : (h.Go us s lockResult).data.requests n =
      { h.data.requests n with type := RequestType.GO, runTime := us % UINT_MOD } := by
    rw [hd.2]
    simp [setAt]
  have hrest : (h.Go us s lockResult).data.responses = h.data.responses ∧
      (h.Go us s lockResult).data.responseCount = h.data.responseCount ∧
      (h.Go us s lockResult).data.simTime = h.data.simTime ∧
      (h.Go us s lockResult).data.pauseTime = h.data.pauseTime ∧
      (h.Go us s lockResult).data.realTime = h.data.realTime ∧
      (h.Go us s lockResult).data.state = h.data.state ∧
      (h.Go us s lockResult).data.head = h.data.head ∧
      (h.Go us s lockResult).data.semId = h.data.semId ∧
      (h.Go us s lockResult).data.semKey = h.data.semKey := by
    rw [Go_keeps_issue_data]
    exact hin.2.2
  obtain ⟨r1, r2, r3, r4, r5, r6, r7, r8, r9⟩ := hrest
  refine ⟨by rw [hd.1, hn1], hslot, ?_, r1, r2, r3, r4, r5, r6, r7, r8, r9, ?_⟩
  · intro j hj
    rw [hd.2]
    simp [setAt, hj]
  · rw [hslot]
    exact ⟨rfl, rfl, rfl, rfl, rfl, rfl, rfl, rfl, rfl, rfl, rfl, rfl⟩

/-- Witness of C21: `Go(7, ..)` on a ring whose next slot holds a stale `SET_POSE2D` request:
the slot gets the tag `GO` and the run time 7 and keeps the stale model name. -/
theorem C21_Go_changes_only_tag_runTime_count_witness :
    (SimulationIface.stale.data.requests 1).modelName = [114, 49] ∧
      ((SimulationIface.stale.Go 7 0 true).data.requests 1).type = RequestType.GO ∧
      ((SimulationIface.stale.Go 7 0 true).data.requests 1).runTime = 7 ∧
      ((SimulationIface.stale.Go 7 0 true).data.requests 1).modelName = [114, 49] :=
  ⟨by decide,
    (congrArg SimulationRequestData.type
      (C21_Go_changes_only_tag_runTime_count SimulationIface.stale 1 7 0 true rfl
        (by decide)).2.1).trans (by decide),
    (congrArg SimulationRequestData.runTime
      (C21_Go_changes_only_tag_runTime_count SimulationIface.stale 1 7 0 true rfl
        (by decide)).2.1).trans (by decide),
    ((C21_Go_changes_only_tag_runTime_count SimulationIface.stale 1 7 0 true rfl
        (by decide)).2.2.2.2.2.2.2.2.2.2.2.2.1).trans (by decide)⟩

/-! ### The aborted `PutCameraData` -/

theorem factor_lt_of_product (w h d m : Nat) (hpos : 0 < w * h * d) (hlt : w * h * d < m) :
    w < m ∧ h < m := by
  have hw : 0 < w := by
    rcases Nat.eq_zero_or_pos w with h0 | h0
    · simp [h0] at hpos
    · exact h0
  have hh : 0 < h := by
    rcases Nat.eq_zero_or_pos h with h0 | h0
    · simp [h0] at hpos
    · exact h0
  have hd : 0 < d := by
    rcases Nat.eq_zero_or_pos d with h0 | h0
    · simp [h0] at hpos
    · exact h0
  constructor
  · calc w = w * 1 * 1 := by ring
      _ ≤ w * h * d := Nat.mul_le_mul (Nat.mul_le_mul (le_refl w) hh) hd
      _ < m := hlt
  · calc h = 1 * h * 1 := by ring
      _ ≤ w * h * d := Nat.mul_le_mul (Nat.mul_le_mul hw (le_refl h)) hd
      _ < m := hlt

theorem PutCameraData_fail_fields (cap : Nat) (cam : Generic_Camera) (lockResult : Bool)
    (hbad : cap < cam.myParent.imageSize) :
    (cam.PutCameraData cap lockResult).cameraIface.data.head.time = cam.myParent.simTime ∧
      (cam.PutCameraData cap lockResult).cameraIface.data.width =
        cam.myParent.imageWidth % UINT_MOD ∧
      (cam.PutCameraData cap lockResult).cameraIface.data.height =
        cam.myParent.imageHeight % UINT_MOD ∧
      (cam.PutCameraData cap lockResult).cameraIface.data.hfov = cam.myParent.hfov ∧
      (cam.PutCameraData cap lockResult).cameraIface.data.vfov = cam.myParent.vfov ∧
      (cam.PutCameraData cap lockResult).cameraIface.data.camera_pose =
        cam.myParent.worldPose ∧
      (cam.PutCameraData cap lockResult).cameraIface.base.held =
        (cam.cameraIface.base.held || lockResult) := by
  simp only [MonoCameraSensor.imageSize, Nat.mul_mod_mod] at hbad
  have hnot : ¬ ((cam.myParent.imageWidth % UINT_MOD) * (cam.myParent.imageHeight % UINT_MOD) *
      cam.myParent.imageDepth) % UINT_MOD ≤ cap := by omega
  simp [Generic_Camera.PutCameraData, CameraIface.store, CameraIface.load, Iface.emit,
    Iface.Lock, hnot]

/-- C22 (code defect): for a 65536 x 65536 image of depth 3 and a buffer of 100000 bytes,
width*height*depth = 12884901888 exceeds the capacity, yet the `unsigned int` product the code
stores in `image_size` wraps to 0, the assertion passes and the operation does not abort:
`image_size` is 0, which is not larger than the capacity, `Unlock` and `Post` are issued and
the lock is released. -/
theorem C22_wrapped_product_does_not_abort :
    100000 < (Generic_Camera.sample true 65536 65536 3).myParent.byteCount ∧
      ((Generic_Camera.sample true 65536 65536 3).PutCameraData 100000 true).aborted = false ∧
      ((Generic_Camera.sample true 65536 65536 3).PutCameraData 100000
        true).cameraIface.data.image_size = 0 ∧
      Event.unlock ∈ ((Generic_Camera.sample true 65536 65536 3).PutCameraData 100000
        true).cameraIface.base.trace ∧
      Event.post ∈ ((Generic_Camera.sample true 65536 65536 3).PutCameraData 100000
        true).cameraIface.base.trace ∧
      ((Generic_Camera.sample true 65536 65536 3).PutCameraData 100000
        true).cameraIface.base.held = false := by
  decide

/-- Where the assertion does its work: when width*height*depth fits an `unsigned int` and
exceeds the capacity of the image buffer, `PutCameraData` aborts non-atomically: the
timestamp, width, height, image_size (larger than the capacity), fields of view and camera
pose of the segment already hold the new values, the image bytes are unchanged, the effects
end with the failed assertion, neither `Unlock` nor `Post` is issued, and a lock acquired at
entry is still held. -/
theorem PutCameraData_aborts_when_product_fits (cap : Nat) (cam : Generic_Camera)
    (lockResult : Bool) (hfit : cam.myParent.byteCount < UINT_MOD)
    (hbig : cap < cam.myParent.byteCount) :
    (cam.PutCameraData cap lockResult).aborted = true ∧
      (cam.PutCameraData cap lockResult).cameraIface.data.head.time = cam.myParent.simTime ∧
      (cam.PutCameraData cap lockResult).cameraIface.data.width = cam.myParent.imageWidth ∧
      (cam.PutCameraData cap lockResult).cameraIface.data.height = cam.myParent.imageHeight ∧
      (cam.PutCameraData cap lockResult).cameraIface.data.image_size =
        cam.myParent.imageWidth * cam.myParent.imageHeight * cam.myParent.imageDepth ∧
      cap < (cam.PutCameraData cap lockResult).cameraIface.data.image_size ∧
      (cam.PutCameraData cap lockResult).cameraIface.data.hfov = cam.myParent.hfov ∧
      (cam.PutCameraData cap lockResult).cameraIface.data.vfov = cam.myParent.vfov ∧
      (cam.PutCameraData cap lockResult).cameraIface.data.camera_pose =
        cam.myParent.worldPose ∧
      (cam.PutCameraData cap lockResult).cameraIface.data.image = cam.cameraIface.data.image ∧
      (cam.PutCameraData cap lockResult).cameraIface.base.since cam.cameraIface.base =
        Event.lock 1 :: (refreshEvents ++ [Event.assertFail]) ∧
      Event.unlock ∉
        (cam.PutCameraData cap lockResult).cameraIface.base.since cam.cameraIface.base ∧
      Event.post ∉
        (cam.PutCameraData cap lockResult).cameraIface.base.since cam.cameraIface.base ∧
      (lockResult = true → (cam.PutCameraData cap lockResult).cameraIface.base.held = true) := by
  have hsz := byteCount_fits cam.myParent hfit
  have hbad : cap < cam.myParent.imageSize := by rw [hsz]; exact hbig
  obtain ⟨f1, f2, f3, f4⟩ := PutCameraData_fail cap cam lockResult hbad
  obtain ⟨g1, g2, g3, g4, g5, g6, g7⟩ := PutCameraData_fail_fields cap cam lockResult hbad
  have hs := since_append _ _ _ f1
  have hwh := factor_lt_of_product cam.myParent.imageWidth cam.myParent.imageHeight
    cam.myParent.imageDepth UINT_MOD (by unfold MonoCameraSensor.byteCount at hbig; omega)
    (by unfold MonoCameraSensor.byteCount at hfit; exact hfit)
  refine ⟨f4, g1, ?_, ?_, ?_, ?_, g4, g5, g6, f3, hs, ?_, ?_, ?_⟩
  · rw [g2, Nat.mod_eq_of_lt hwh.1]
  · rw [g3, Nat.mod_eq_of_lt hwh.2]
  · rw [f2, hsz]
    rfl
  · rw [f2, hsz]
    exact hbig
  · rw [hs]
    simp [refreshEvents]
  · rw [hs]
    simp [refreshEvents]
  · intro hl
    rw [g7, hl]
    simp

/-! ### The frame of the `data` pointer -/

/-- C23: the `data` pointer of a device variant is changed only by a successful `Create` or
`Open` (and set to `NULL` by the destructor): when the base `Iface::Create` or `Iface::Open`
fails, the variant's `Create` or `Open` propagates the failure and leaves `data` unchanged;
the inherited `Close`, `Destroy`, `Lock`, `Unlock` and `Post` leave `data` unchanged, so after
a successful `Open` followed by `Close`, `data` is still the address the region was mapped at,
whatever `Close` did to `mMap`. -/
theorem C23_data_changed_only_by_Create_Open (ops : IfaceOps) (inh : IfaceInherited)
    (self : DeviceIface) (n : Nat) (id : String) (blocking : Int) :
    ((ops.Create self.members n id).ok = false →
        (self.Create ops n id).2 = false ∧ (self.Create ops n id).1.data = self.data) ∧
      ((ops.Open self.members n id).ok = false →
        (self.Open ops n id).2 = false ∧ (self.Open ops n id).1.data = self.data) ∧
      (self.Close inh).data = self.data ∧
      (self.Destroy inh).data = self.data ∧
      (self.Lock inh blocking).1.data = self.data ∧
      (self.Unlock inh).1.data = self.data ∧
      (self.Post inh).data = self.data ∧
      self.destructor.data = none ∧
      ((ops.Create self.members n id).ok = true →
        ((self.Create ops n id).1.Close inh).data = (ops.Create self.members n id).members.mMap) ∧
      ((ops.Open self.members n id).ok = true →
        ((self.Open ops n id).1.Close inh).data = (ops.Open self.members n id).members.mMap) := by
  obtain ⟨k, m, d⟩ := self
  refine ⟨?_, ?_, rfl, rfl, rfl, rfl, rfl, ?_, ?_, ?_⟩
  · intro hok
    simp only at hok
    cases k <;> simp [DeviceIface.Create, hok]
  · intro hok
    simp only at hok
    cases k <;> simp [DeviceIface.Open, hok]
  · cases k <;> rfl
  · intro hok
    simp only at hok
    cases k <;> simp [DeviceIface.Create, DeviceIface.Close, hok]
  · intro hok
    simp only at hok
    cases k <;> simp [DeviceIface.Open, DeviceIface.Close, hok]

/-- Witness of C23: on a laser handle, an `Open` that fails (empty id) leaves `data` unset; a
successful `Open` followed by `Close` leaves `data` at the address 4096 while `mMap` has been
reset. -/
theorem C23_data_changed_only_by_Create_Open_witness :
    ((DeviceIface.sample Variant.LaserIface).Open IfaceOps.sample 2 "").1.data =
        (DeviceIface.sample Variant.LaserIface).data ∧
      (((DeviceIface.sample Variant.LaserIface).Open IfaceOps.sample 2 "laser_iface_0").1.Close
        IfaceInherited.sample).data = some 4096 ∧
      (((DeviceIface.sample Variant.LaserIface).Open IfaceOps.sample 2 "laser_iface_0").1.Close
        IfaceInherited.sample).members.mMap = none :=
  ⟨((C23_data_changed_only_by_Create_Open IfaceOps.sample IfaceInherited.sample
      (DeviceIface.sample Variant.LaserIface) 2 "" 1).2.1 (by decide)).2,
    ((C23_data_changed_only_by_Create_Open IfaceOps.sample IfaceInherited.sample
      (DeviceIface.sample Variant.LaserIface) 2 "laser_iface_0" 1).2.2.2.2.2.2.2.2.2
        (by decide)).trans (by decide),
    by decide⟩

end gazebo
